import Mathlib

/-!
Verification development for the crop-area-prediction backend.

This file gives a shallow embedding, in Lean 4, of the orchestration and
decision pipeline of the backend (`src/backend`): the query-parsing and
staged pipeline of `manager_agent.py`, the three data collectors
(`weather_agent.py`, `soil_agent.py`, `satellite_agent.py`), the fusion
engine (`prediction_agent.py`), the alert engine (`alert_agent.py`) and the
response renderer (`response_agent.py`), together with theorems about the
behavioural properties of that pipeline.

Modelling conventions, used uniformly below:
* Python floats and ints entering arithmetic are modelled as rationals `ℚ`
  (or `ℤ` where the source value is always an int); `round(x, n)` is
  modelled by `roundN` below (Python rounds ties to even, Lean's `round`
  rounds ties up; no property proved here depends on tie behaviour).
* Python dict payloads are modelled as structures; a key that some producer
  or consumer may omit is an `Option` field, and every consumer-side
  `d.get(key, default)` is written out explicitly as an accessor applying
  the same default, so the source's silent-default reads stay visible.
* Calls to `random.uniform(a, b)` are modelled as `uniformQ a b r` with an
  explicit draw parameter `r` (the draw is in `[a, b]` when `r ∈ [0, 1]`);
  `random.randint(a, b)` is modelled by `randintP a b n`, which is total
  and always lands in `[a, b]`.
* `datetime.now()` is a single explicit parameter `now : ℤ` per run
  (measured in hours, so `timedelta(hours=h)` is `+ h`); `datetime.now().month`
  is an explicit `month : ℕ` parameter.
* Exceptions are modelled with `Except String`; `try/except` becomes a
  match on the `Except` value.
* Python's `sorted(l, key=k)` (a stable sort) is modelled by Mathlib's
  `List.insertionSort` with the total preorder induced by `k`, which
  computes exactly the stable sort by `k`.
-/

/-! ### Small Python-semantics helpers -/

/-- Models Python `round(x, 2)` (two decimal places). -/
def round2 (x : ℚ) : ℚ := ((round (x * 100) : ℤ) : ℚ) / 100

/-- Models Python `round(x, 1)` (one decimal place). -/
def round1 (x : ℚ) : ℚ := ((round (x * 10) : ℤ) : ℚ) / 10

/-- Models Python `round(x, 3)` (three decimal places). -/
def round3 (x : ℚ) : ℚ := ((round (x * 1000) : ℤ) : ℚ) / 1000

/-- Models Python `int(x)` on a rational: truncation toward zero. -/
def pyInt (q : ℚ) : ℤ := q.num / (q.den : ℤ)

/-- Models `random.uniform(a, b)` with an explicit draw `r`; the result is in
`[a, b]` whenever `r ∈ [0, 1]`. -/
def uniformQ (a b r : ℚ) : ℚ := a + (b - a) * r

/-- Models `random.randint(a, b)` with an explicit draw `n`; total, and the
result is always in `[a, b]` (for `a ≤ b`). -/
def randintP (a b : ℤ) (n : ℕ) : ℤ := a + (n % (b - a + 1).toNat)

/-- Models `random.choice(l)` with an explicit draw `n`. -/
def choiceP {α : Type} (l : List α) (d : α) (n : ℕ) : α := l.getD (n % l.length) d

/-- Models Python string interpolation of a value that may be `None`
(`f-strings` print `None` for it). -/
def pyStr (s : Option String) : String := s.getD "None"

/-- Models Python `a or b` on two optional strings (`None` and `""` are
falsy). -/
def pyOr (a b : Option String) : Option String :=
  match a with
  | some s => if s = "" then b else some s
  | none => b

/-- Models Python `not x` truthiness on an optional number (`None`, `0` and
`0.0` are falsy). -/
def pyFalsyNum (x : Option ℚ) : Bool :=
  match x with
  | none => true
  | some q => q == 0

/-- ASCII lower-casing of one character, as `str.lower()` acts on the ASCII
names involved in query parsing. -/
def charLower (c : Char) : Char :=
  if 'A' ≤ c ∧ c ≤ 'Z' then Char.ofNat (c.toNat + 32) else c

/-- Models Python `s.lower()` on the strings used for query parsing. -/
def strLower (s : String) : String := String.mk (s.toList.map charLower)

/-- Helper for the substring test: whether the first list is a prefix of the
second. -/
def charsPrefixEq : List Char → List Char → Bool
  | [], _ => true
  | _ :: _, [] => false
  | a :: as, b :: bs => a == b && charsPrefixEq as bs

/-- Helper for the substring test: whether `needle` occurs contiguously in
the second list. -/
def charsContain (needle : List Char) : List Char → Bool
  | [] => charsPrefixEq needle []
  | h :: t => charsPrefixEq needle (h :: t) || charsContain needle t

/-- Models Python `needle in hay` on strings (contiguous substring test). -/
def strContains (hay needle : String) : Bool := charsContain needle.toList hay.toList

/-! ### Static reference tables (`config.py`) -/

/-- Per-state record of `config.INDIAN_STATES`: coordinates and crops. -/
structure StateInfo where
  lat : ℚ
  lon : ℚ
  crops : List String
deriving DecidableEq

/-- The `config.INDIAN_STATES` table, in source (insertion) order, which is
the scan order of the region loop in `_parse_query`. -/
def INDIAN_STATES : List (String × StateInfo) :=
  [("Maharashtra", ⟨19.7515, 75.7139, ["Rice", "Cotton", "Sugarcane", "Soybean"]⟩),
   ("Punjab", ⟨31.1471, 75.3412, ["Wheat", "Rice", "Cotton", "Maize"]⟩),
   ("Uttar Pradesh", ⟨26.8467, 80.9462, ["Wheat", "Rice", "Sugarcane", "Potato"]⟩),
   ("Madhya Pradesh", ⟨22.9734, 78.6569, ["Wheat", "Soybean", "Gram", "Rice"]⟩),
   ("Karnataka", ⟨15.3173, 75.7139, ["Rice", "Ragi", "Sugarcane", "Cotton"]⟩),
   ("Gujarat", ⟨22.2587, 71.1924, ["Cotton", "Groundnut", "Wheat", "Rice"]⟩),
   ("Rajasthan", ⟨27.0238, 74.2179, ["Wheat", "Bajra", "Mustard", "Gram"]⟩),
   ("Tamil Nadu", ⟨11.1271, 78.6569, ["Rice", "Sugarcane", "Cotton", "Groundnut"]⟩),
   ("Andhra Pradesh", ⟨15.9129, 79.7400, ["Rice", "Cotton", "Chilli", "Groundnut"]⟩),
   ("West Bengal", ⟨22.9868, 87.8550, ["Rice", "Jute", "Potato", "Wheat"]⟩)]

/-- Models `config.INDIAN_STATES.get(state, config.INDIAN_STATES["Maharashtra"])`;
a `none` key (Python `None`) also falls through to the Maharashtra entry. -/
def getStateInfo (state : Option String) : StateInfo :=
  match state with
  | some s => (((INDIAN_STATES.find? (fun p => p.1 == s)).map (·.2)).getD
      ⟨19.7515, 75.7139, ["Rice", "Cotton", "Sugarcane", "Soybean"]⟩)
  | none => ⟨19.7515, 75.7139, ["Rice", "Cotton", "Sugarcane", "Soybean"]⟩

/-! ### Snapshot data model

Structures mirroring the dict payloads produced by the three collectors and
consumed by the fusion engine, the alert engine and the renderer.  `Option`
fields mirror keys that some producer omits (for instance the live weather
path never writes `data_source`) or that consumers read with `.get`.
Output-only fields that no downstream component reads (the satellite
`historical_comparison` block and the constant imagery metadata strings) are
omitted from the embedding. -/

/-- The `current` block of a weather snapshot. -/
structure WeatherCurrent where
  temperature : Option ℚ := none
  humidity : Option ℚ := none
  pressure : Option ℚ := none
  windSpeed : Option ℚ := none
  description : Option String := none
  clouds : Option ℚ := none
deriving DecidableEq

/-- The `rainfall` block of a weather snapshot. -/
structure RainfallInfo where
  last1h : Option ℚ := none
  last3h : Option ℚ := none
  last24h : Option ℚ := none
deriving DecidableEq

/-- One entry of the weather `forecast` list. -/
structure ForecastDay where
  datetimeStr : Option String := none
  temperature : Option ℚ := none
  humidity : Option ℚ := none
  rainProbability : Option ℚ := none
  description : Option String := none
deriving DecidableEq

/-- One entry of the weather snapshot's own `alerts` list (produced by
`_detect_alerts` / `_generate_alerts` in the weather agent). -/
structure WeatherAlertItem where
  atype : String
  severity : Option String := none
  message : String
deriving DecidableEq

/-- A weather snapshot (`WeatherAgent` output / consumer input). -/
structure WeatherData where
  current : Option WeatherCurrent := none
  rainfall : Option RainfallInfo := none
  forecast : List ForecastDay := []
  alerts : List WeatherAlertItem := []
  timestamp : Option ℤ := none
  dataSource : Option String := none
deriving DecidableEq

/-- The `moisture` block of a soil snapshot. -/
structure MoistureInfo where
  current : Option ℚ := none
  optimalMin : Option ℚ := none
  optimalMax : Option ℚ := none
  status : Option String := none
deriving DecidableEq

/-- The `ph` block of a soil snapshot. -/
structure PhInfo where
  current : Option ℚ := none
  optimalMin : Option ℚ := none
  optimalMax : Option ℚ := none
  status : Option String := none
deriving DecidableEq

/-- One nutrient entry of the soil `npk` block. -/
structure NutrientInfo where
  current : Option ℚ := none
  unit : Option String := none
  status : Option String := none
deriving DecidableEq

/-- The `npk` block of a soil snapshot. -/
structure NpkInfo where
  nitrogen : Option NutrientInfo := none
  phosphorus : Option NutrientInfo := none
  potassium : Option NutrientInfo := none
deriving DecidableEq

/-- One soil-agent recommendation entry. -/
structure SoilRecommendation where
  rtype : Option String := none
  priority : Option String := none
  message : Option String := none
  action : Option String := none
deriving DecidableEq

/-- A soil snapshot (`SoilAgent` output / consumer input). -/
structure SoilData where
  soilType : Option String := none
  allSoilTypes : List String := []
  moisture : Option MoistureInfo := none
  ph : Option PhInfo := none
  npk : Option NpkInfo := none
  healthScore : Option ℤ := none
  organicCarbon : Option ℚ := none
  electricalConductivity : Option ℚ := none
  season : Option String := none
  timestamp : Option ℤ := none
  dataSource : Option String := none
  recommendations : List SoilRecommendation := []
deriving DecidableEq

/-- The `ndvi` block of a satellite snapshot. -/
structure NdviInfo where
  current : Option ℚ := none
  interpretation : Option String := none
  optimalMin : Option ℚ := none
  optimalMax : Option ℚ := none
  status : Option String := none
deriving DecidableEq

/-- The `coverage` block of a satellite snapshot. -/
structure CoverageInfo where
  totalAgriculturalArea : Option ℚ := none
  cropArea : Option ℚ := none
  healthyAreaPercentage : Option ℚ := none
  stressedAreaPercentage : Option ℚ := none
  fallowLandPercentage : Option ℚ := none
deriving DecidableEq

/-- One entry of the satellite `stress_areas` list. -/
structure StressArea where
  stype : Option String := none
  severity : Option String := none
  affectedAreaPercentage : Option ℚ := none
  description : Option String := none
deriving DecidableEq

/-- The `stress_analysis` block of a satellite snapshot. -/
structure StressAnalysis where
  stressDetected : Option Bool := none
  stressCount : Option ℕ := none
  stressAreas : List StressArea := []
  overallStressLevel : Option String := none
deriving DecidableEq

/-- The `growth_stage` block of a satellite snapshot. -/
structure GrowthStage where
  currentStage : Option String := none
  daysInStage : Option ℤ := none
  expectedDaysRemaining : Option ℤ := none
  nextStage : Option String := none
deriving DecidableEq

/-- A satellite snapshot (`SatelliteAgent` output / consumer input). -/
structure SatelliteData where
  ndvi : Option NdviInfo := none
  healthScore : Option ℤ := none
  healthStatus : Option String := none
  coverage : Option CoverageInfo := none
  stressAnalysis : Option StressAnalysis := none
  growthStage : Option GrowthStage := none
  imageryDate : Option ℤ := none
  cloudCover : Option ℚ := none
  lat : Option ℚ := none
  lon : Option ℚ := none
  timestamp : Option ℤ := none
  dataSource : Option String := none
deriving DecidableEq

/-! Consumer-side accessors, writing out the source's `.get` defaults.
A `none` snapshot models an empty (falsy) dict. -/

/-- Reads `weather.get("current", \x7b\x7d).get("temperature", 25)`. -/
def weatherTemp (w : Option WeatherData) : ℚ :=
  (((w.bind (·.current)).bind (·.temperature)).getD 25)

/-- Reads `weather.get("current", \x7b\x7d).get("humidity", 60)`. -/
def weatherHumidity (w : Option WeatherData) : ℚ :=
  (((w.bind (·.current)).bind (·.humidity)).getD 60)

/-- Reads `weather.get("rainfall", \x7b\x7d).get("last_24h", 20)`. -/
def weatherRainfall24 (w : Option WeatherData) : ℚ :=
  (((w.bind (·.rainfall)).bind (·.last24h)).getD 20)

/-- Reads `weather.get("alerts", [])`. -/
def weatherAlertsOf (w : Option WeatherData) : List WeatherAlertItem :=
  ((w.map (·.alerts)).getD [])

/-- Reads `weather.get("forecast", [])`. -/
def weatherForecastOf (w : Option WeatherData) : List ForecastDay :=
  ((w.map (·.forecast)).getD [])

/-- Reads `soil.get("moisture", \x7b\x7d).get("current", 50)`. -/
def soilMoistureCurrent (s : Option SoilData) : ℚ :=
  (((s.bind (·.moisture)).bind (·.current)).getD 50)

/-- Reads `soil.get("moisture", \x7b\x7d).get("status", "optimal")`. -/
def soilMoistureStatus (s : Option SoilData) : String :=
  (((s.bind (·.moisture)).bind (·.status)).getD "optimal")

/-- Reads `soil.get("ph", \x7b\x7d).get("status", "optimal")`. -/
def soilPhStatus (s : Option SoilData) : String :=
  (((s.bind (·.ph)).bind (·.status)).getD "optimal")

/-- Reads `soil.get("health_score", 70)`. -/
def soilHealthScoreOf (s : Option SoilData) : ℤ :=
  ((s.bind (·.healthScore)).getD 70)

/-- Reads `satellite.get("health_score", 70)`. -/
def satHealthScoreOf (s : Option SatelliteData) : ℤ :=
  ((s.bind (·.healthScore)).getD 70)

/-- Reads `satellite.get("ndvi", \x7b\x7d).get("status", "optimal")`. -/
def satNdviStatus (s : Option SatelliteData) : String :=
  (((s.bind (·.ndvi)).bind (·.status)).getD "optimal")

/-- Reads `satellite.get("stress_analysis", \x7b\x7d).get("overall_stress_level")`
(no default: absent key reads as Python `None`). -/
def satStressLevel (s : Option SatelliteData) : Option String :=
  ((s.bind (·.stressAnalysis)).bind (·.overallStressLevel))

/-- Reads `satellite.get("coverage", \x7b\x7d).get("crop_area", 10)`. -/
def satCropArea (s : Option SatelliteData) : ℚ :=
  (((s.bind (·.coverage)).bind (·.cropArea)).getD 10)

/-- Models Python `crop in l` where `crop` may be `None`. -/
def cropIn (crop : Option String) (l : List String) : Bool :=
  match crop with
  | some c => l.contains c
  | none => false

/-! ### Fusion / prediction engine (`prediction_agent.py`) -/

/-- One entry of the `PredictionAgent.AVERAGE_YIELDS` table
(tonnes/hectare). -/
structure YieldInfo where
  avg : ℚ
  max : ℚ
  min : ℚ
deriving DecidableEq

/-- The `PredictionAgent.AVERAGE_YIELDS` table. -/
def AVERAGE_YIELDS : List (String × YieldInfo) :=
  [("Rice", ⟨2.8, 4.5, 1.5⟩),
   ("Wheat", ⟨3.5, 5.0, 2.0⟩),
   ("Cotton", ⟨0.5, 0.8, 0.2⟩),
   ("Sugarcane", ⟨70, 100, 40⟩),
   ("Soybean", ⟨1.2, 2.0, 0.6⟩),
   ("Maize", ⟨3.0, 5.0, 1.5⟩),
   ("Groundnut", ⟨1.5, 2.5, 0.8⟩),
   ("Gram", ⟨1.0, 1.8, 0.5⟩),
   ("Bajra", ⟨1.3, 2.0, 0.7⟩),
   ("Mustard", ⟨1.2, 2.0, 0.6⟩)]

/-- Models `AVERAGE_YIELDS.get(crop, dict(avg 2.5, max 4.0, min 1.0))`,
where `crop` may be Python `None`. -/
def lookupYield (crop : Option String) : YieldInfo :=
  match crop with
  | some c => (((AVERAGE_YIELDS.find? (fun p => p.1 == c)).map (·.2)).getD ⟨2.5, 4.0, 1.0⟩)
  | none => ⟨2.5, 4.0, 1.0⟩

/-- The `PredictionAgent.RISK_WEIGHTS` dict. -/
def RISK_WEIGHTS : String → ℚ
  | "weather" => 0.25
  | "soil" => 0.20
  | "crop_health" => 0.25
  | "historical" => 0.15
  | "season" => 0.15
  | _ => 0

/-- The `optimal_temps` dict of `_calculate_weather_score`, with its
`(20, 30)` default; the key may be Python `None`. -/
def optimalTemps (crop : Option String) : ℚ × ℚ :=
  match crop with
  | some "Rice" => (25, 35)
  | some "Wheat" => (15, 25)
  | some "Cotton" => (25, 35)
  | some "Sugarcane" => (20, 30)
  | _ => (20, 30)

/-- Models `_calculate_weather_score` (the source also reads `humidity` but
never uses it).  The result is clamped to `[0.3, 1.0]`; an empty/missing
dict scores `0.7`. -/
def calculateWeatherScore (weather : Option WeatherData) (crop : Option String) : ℚ :=
  match weather with
  | none => 0.7
  | some w =>
    let temp := ((w.current.bind (·.temperature)).getD 25)
    let rainfall := ((w.rainfall.bind (·.last24h)).getD 20)
    let optRange := optimalTemps crop
    let s1 : ℚ := 1.0
    let s2 := if temp < optRange.1 then s1 - (optRange.1 - temp) * 0.02
      else if temp > optRange.2 then s1 - (temp - optRange.2) * 0.02
      else s1
    let s3 := if rainfall > 100 then s2 - 0.15
      else if rainfall < 5 ∧ cropIn crop ["Rice", "Sugarcane"] then s2 - 0.2
      else s2
    let s4 := w.alerts.foldl (fun acc a =>
      if a.severity == some "high" then acc - 0.15
      else if a.severity == some "medium" then acc - 0.08
      else acc) s3
    max 0.3 (min 1.0 s4)

/-- Models `_calculate_soil_score` (its `crop` parameter is unused in the
source).  Clamped to `[0.3, 1.0]`; an empty/missing dict scores `0.7`. -/
def calculateSoilScore (soil : Option SoilData) (_crop : Option String) : ℚ :=
  match soil with
  | none => 0.7
  | some s =>
    let healthScore : ℚ := ((s.healthScore.getD 70 : ℤ) : ℚ)
    let moistureStatus := ((s.moisture.bind (·.status)).getD "optimal")
    let phStatus := ((s.ph.bind (·.status)).getD "optimal")
    let s1 := healthScore / 100
    let s2 := if moistureStatus = "low" then s1 - 0.15
      else if moistureStatus = "high" then s1 - 0.08
      else s1
    let s3 := if phStatus = "acidic" ∨ phStatus = "alkaline" then s2 - 0.1 else s2
    max 0.3 (min 1.0 s3)

/-- Models `_calculate_satellite_score`.  Clamped to `[0.3, 1.0]`; an
empty/missing dict scores `0.7`. -/
def calculateSatelliteScore (satellite : Option SatelliteData) : ℚ :=
  match satellite with
  | none => 0.7
  | some s =>
    let healthScore : ℚ := ((s.healthScore.getD 70 : ℤ) : ℚ)
    let ndviStatus := ((s.ndvi.bind (·.status)).getD "optimal")
    let stress := (s.stressAnalysis.bind (·.overallStressLevel))
    let s1 := healthScore / 100
    let s2 := if ndviStatus = "below_optimal" then s1 - 0.1 else s1
    let s3 := if stress == some "high" then s2 - 0.15
      else if stress == some "medium" then s2 - 0.08
      else s2
    max 0.3 (min 1.0 s3)

/-- The kharif crop list of `_calculate_seasonal_score`. -/
def kharifCrops : List String := ["Rice", "Cotton", "Soybean", "Maize", "Groundnut"]

/-- The rabi crop list of `_calculate_seasonal_score`. -/
def rabiCrops : List String := ["Wheat", "Gram", "Mustard"]

/-- Models `_calculate_seasonal_score` with an explicit uniform draw `r`. -/
def calculateSeasonalScore (crop : Option String) (month : ℕ) (r : ℚ) : ℚ :=
  if cropIn crop kharifCrops ∧ month ∈ [7, 8, 9, 10] then uniformQ 0.8 0.95 r
  else if cropIn crop rabiCrops ∧ month ∈ [12, 1, 2, 3] then uniformQ 0.8 0.95 r
  else uniformQ 0.5 0.7 r

/-- Models `_calculate_confidence`: base 70 plus data-availability bonuses
(live weather +10, soil present +5, satellite present +10) plus
`randint(-5, 5)` noise, clamped to `[50, 95]`. -/
def calculateConfidence (weather : Option WeatherData) (soil : Option SoilData)
    (satellite : Option SatelliteData) (noiseDraw : ℕ) : ℤ :=
  let b1 : ℤ := 70
  let b2 := if (weather.map (fun w => !(w.dataSource == some "simulated"))).getD false
    then b1 + 10 else b1
  let b3 := if soil.isSome then b2 + 5 else b2
  let b4 := if satellite.isSome then b3 + 10 else b3
  max 50 (min 95 (b4 + randintP (-5) 5 noiseDraw))

/-- Models `_get_risk_level`. -/
def getRiskLevel (riskScore : ℚ) : String :=
  if riskScore < 20 then "low"
  else if riskScore < 40 then "moderate"
  else if riskScore < 60 then "elevated"
  else if riskScore < 80 then "high"
  else "critical"

/-- Models `_get_confidence_level`. -/
def getConfidenceLevel (confidence : ℤ) : String :=
  if confidence ≥ 85 then "very_high"
  else if confidence ≥ 70 then "high"
  else if confidence ≥ 55 then "moderate"
  else "low"

/-- One risk factor entry of `_get_risk_factors`. -/
structure RiskFactor where
  factor : String
  impact : String
  description : String
deriving DecidableEq

/-- Models `_get_risk_factors`. -/
def getRiskFactors (weatherScore soilScore satelliteScore seasonalScore : ℚ) :
    List RiskFactor :=
  let f1 : List RiskFactor := if weatherScore < 0.6 then
    [⟨"Weather Conditions", "high", "Unfavorable weather patterns may affect yield"⟩] else []
  let f2 := if soilScore < 0.6 then
    f1 ++ [⟨"Soil Health", "medium", "Soil conditions need improvement for optimal growth"⟩]
    else f1
  let f3 := if satelliteScore < 0.6 then
    f2 ++ [⟨"Crop Health", "high", "Crop stress detected in satellite imagery"⟩] else f2
  let f4 := if seasonalScore < 0.6 then
    f3 ++ [⟨"Seasonal Timing", "medium", "Current season may not be optimal for this crop"⟩]
    else f3
  if f4.isEmpty then
    [⟨"None Significant", "low", "All major factors are within acceptable ranges"⟩]
  else f4

/-- Models `_generate_outlook` (a `None` crop prints as `None`, as in a
Python f-string). -/
def generateOutlook (combinedScore : ℚ) (crop : Option String) : String :=
  if combinedScore ≥ 0.8 then
    "Excellent outlook for " ++ pyStr crop ++
      ". Conditions are favorable and yield is expected to exceed historical averages."
  else if combinedScore ≥ 0.65 then
    "Good outlook for " ++ pyStr crop ++
      ". Most factors are positive, though minor issues may slightly impact yield."
  else if combinedScore ≥ 0.5 then
    "Moderate outlook for " ++ pyStr crop ++
      ". Some challenges exist that may affect yield. Close monitoring recommended."
  else if combinedScore ≥ 0.35 then
    "Concerning outlook for " ++ pyStr crop ++
      ". Multiple factors are unfavorable. Immediate corrective action advised."
  else
    "Poor outlook for " ++ pyStr crop ++
      ". Significant challenges detected. Consider consulting agricultural experts."

/-- One recommendation entry of `_generate_yield_recommendations`. -/
structure YieldRecommendation where
  category : String
  priority : String
  action : String
  expectedImpact : String
deriving DecidableEq

/-- Models `_generate_yield_recommendations`. -/
def generateYieldRecommendations (weatherScore soilScore satelliteScore : ℚ)
    (crop : Option String) : List YieldRecommendation :=
  let r1 : List YieldRecommendation := if weatherScore < 0.6 then
    [⟨"Weather Management", "high", "Install protective measures like shade nets or mulching",
      "Reduce weather-related stress by 20-30%"⟩] else []
  let r2 := if soilScore < 0.6 then
    r1 ++ [⟨"Soil Improvement", "high", "Apply recommended fertilizers and soil amendments",
      "Improve soil health score by 15-25%"⟩] else r1
  let r3 := if satelliteScore < 0.6 then
    r2 ++ [⟨"Crop Management", "high",
      "Inspect fields for pest/disease and apply treatments if needed",
      "Prevent further health decline"⟩] else r2
  r3 ++ [⟨"Monitoring", "medium",
    "Continue regular monitoring of " ++ pyStr crop ++ " fields",
    "Early detection of issues"⟩]

/-- The explicit random draws consumed by one `_generate_prediction` call. -/
structure PredRng where
  histDraw : ℚ := 0
  seasDraw : ℚ := 0
  confNoise : ℕ := 0

/-- Models the local `combined_score` of `_generate_prediction`: the
weighted sum of the four factor scores and the `uniform(0.7, 0.9)`
historical term. -/
def combinedScore (crop : Option String) (weather : Option WeatherData)
    (soil : Option SoilData) (satellite : Option SatelliteData)
    (month : ℕ) (rng : PredRng) : ℚ :=
  calculateWeatherScore weather crop * RISK_WEIGHTS "weather" +
  calculateSoilScore soil crop * RISK_WEIGHTS "soil" +
  calculateSatelliteScore satellite * RISK_WEIGHTS "crop_health" +
  calculateSeasonalScore crop month rng.seasDraw * RISK_WEIGHTS "season" +
  uniformQ 0.7 0.9 rng.histDraw * RISK_WEIGHTS "historical"

/-- Models the local `predicted_yield` of `_generate_prediction`:
the combined score mapped linearly onto the crop's yield range, rounded to
two decimals. -/
def predictedYieldOf (crop : Option String) (weather : Option WeatherData)
    (soil : Option SoilData) (satellite : Option SatelliteData)
    (month : ℕ) (rng : PredRng) : ℚ :=
  let yi := lookupYield crop
  round2 (yi.min + (yi.max - yi.min) * combinedScore crop weather soil satellite month rng)

/-- The `confidence_interval` block of a prediction. -/
structure ConfidenceInterval where
  lower : ℚ
  upper : ℚ
deriving DecidableEq

/-- The `yield_prediction` block of a prediction. -/
structure YieldPrediction where
  predicted : ℚ
  unit : String
  confidenceInterval : ConfidenceInterval
  comparisonToAverage : ℚ
  historicalAverage : ℚ
  maximumPotential : ℚ
deriving DecidableEq

/-- The `production_forecast` block of a prediction. -/
structure ProductionForecast where
  estimatedProduction : ℚ
  unit : String
  areaUnderCrop : ℚ
  areaUnit : String
deriving DecidableEq

/-- The `risk_assessment` block of a prediction. -/
structure RiskAssessment where
  overallRiskScore : ℚ
  riskLevel : String
  factors : List RiskFactor
deriving DecidableEq

/-- The `confidence` block of a prediction. -/
structure ConfidenceInfo where
  score : ℤ
  level : String
deriving DecidableEq

/-- The `factor_scores` block of a prediction. -/
structure FactorScores where
  weatherImpact : ℚ
  soilHealth : ℚ
  cropCondition : ℚ
  seasonalFavorability : ℚ
deriving DecidableEq

/-- The full output dict of `_generate_prediction` (the
`PredictionRecord`). -/
structure Prediction where
  yieldPrediction : YieldPrediction
  productionForecast : ProductionForecast
  riskAssessment : RiskAssessment
  confidence : ConfidenceInfo
  outlook : String
  recommendations : List YieldRecommendation
  factorScores : FactorScores
  timestamp : ℤ
deriving DecidableEq

/-- Models `_generate_prediction` (and with it `PredictionAgent.execute`,
which delegates to it after reading the task fields). -/
def generatePrediction (_state : Option String) (crop : Option String)
    (weather : Option WeatherData) (soil : Option SoilData)
    (satellite : Option SatelliteData) (month : ℕ) (now : ℤ) (rng : PredRng) :
    Prediction :=
  let yi := lookupYield crop
  let weatherScore := calculateWeatherScore weather crop
  let soilScore := calculateSoilScore soil crop
  let satelliteScore := calculateSatelliteScore satellite
  let seasonalScore := calculateSeasonalScore crop month rng.seasDraw
  let cs := combinedScore crop weather soil satellite month rng
  let predictedYield := predictedYieldOf crop weather soil satellite month rng
  let confidence := calculateConfidence weather soil satellite rng.confNoise
  let margin := predictedYield * (1 - (confidence : ℚ) / 100) * 0.3
  let riskScore := round1 ((1 - cs) * 100)
  let cropArea := satCropArea satellite
  let production := round2 (predictedYield * cropArea)
  { yieldPrediction :=
      { predicted := predictedYield
        unit := "tonnes/hectare"
        confidenceInterval :=
          { lower := round2 (predictedYield - margin)
            upper := round2 (predictedYield + margin) }
        comparisonToAverage := round1 ((predictedYield / yi.avg - 1) * 100)
        historicalAverage := yi.avg
        maximumPotential := yi.max }
    productionForecast :=
      { estimatedProduction := production
        unit := "lakh tonnes"
        areaUnderCrop := cropArea
        areaUnit := "lakh hectares" }
    riskAssessment :=
      { overallRiskScore := riskScore
        riskLevel := getRiskLevel riskScore
        factors := getRiskFactors weatherScore soilScore satelliteScore seasonalScore }
    confidence :=
      { score := confidence
        level := getConfidenceLevel confidence }
    outlook := generateOutlook cs crop
    recommendations := generateYieldRecommendations weatherScore soilScore satelliteScore crop
    factorScores :=
      { weatherImpact := round1 (weatherScore * 100)
        soilHealth := round1 (soilScore * 100)
        cropCondition := round1 (satelliteScore * 100)
        seasonalFavorability := round1 (seasonalScore * 100) }
    timestamp := now }

/-! ### Alert engine (`alert_agent.py`) -/

/-- One alert dict as produced by the detection rules.  Every field is an
`Option` because different rules write different key sets: in particular the
advance-forecast rules write `timeframe` but no `valid_until`. -/
structure Alert where
  atype : Option String := none
  severity : Option String := none
  title : Option String := none
  message : Option String := none
  affectedComponent : Option String := none
  diseasesAtRisk : Option (List String) := none
  recommendedAction : Option String := none
  validUntil : Option ℤ := none
  timeframe : Option String := none
deriving DecidableEq

/-- Models `_detect_drought_risk` (`now` is the detection-time
`datetime.now()`, in hours). -/
def detectDroughtRisk (weather : Option WeatherData) (soil : Option SoilData)
    (now : ℤ) : List Alert :=
  let rainfall := weatherRainfall24 weather
  let moisture := soilMoistureCurrent soil
  let a1 : List Alert := if rainfall < 5 then
    [{ atype := some "drought_risk"
       severity := some (if rainfall < 2 then "high" else "medium")
       title := some "Drought Conditions Developing"
       message := some ("Very low rainfall (" ++ toString rainfall ++
         "mm in 24h). Consider irrigation.")
       affectedComponent := some "water_supply"
       recommendedAction := some "Initiate supplemental irrigation immediately"
       validUntil := some (now + 48) }] else []
  let a2 : List Alert := if moisture < 30 then
    [{ atype := some "low_soil_moisture"
       severity := some (if moisture < 20 then "high" else "medium")
       title := some "Critically Low Soil Moisture"
       message := some ("Soil moisture at " ++ toString moisture ++
         "%, crops may experience water stress.")
       affectedComponent := some "soil"
       recommendedAction := some "Apply mulching and irrigate during early morning or evening"
       validUntil := some (now + 24) }] else []
  a1 ++ a2

/-- Models `_detect_flood_risk`. -/
def detectFloodRisk (weather : Option WeatherData) (soil : Option SoilData)
    (now : ℤ) : List Alert :=
  let rainfall := weatherRainfall24 weather
  let moisture := soilMoistureCurrent soil
  let a1 : List Alert := if rainfall > 100 then
    [{ atype := some "flood_risk"
       severity := some "critical"
       title := some "Heavy Rainfall - Flood Risk"
       message := some ("Extreme rainfall (" ++ toString rainfall ++
         "mm). High risk of waterlogging and flooding.")
       affectedComponent := some "field"
       recommendedAction := some "Clear drainage channels, move equipment to higher ground"
       validUntil := some (now + 24) }]
    else if rainfall > 70 then
    [{ atype := some "waterlogging_risk"
       severity := some "medium"
       title := some "Waterlogging Possible"
       message := some ("Heavy rainfall (" ++ toString rainfall ++
         "mm) may cause waterlogging in low-lying areas.")
       affectedComponent := some "field"
       recommendedAction := some "Ensure proper drainage in fields"
       validUntil := some (now + 36) }] else []
  let a2 : List Alert := if moisture > 90 then
    [{ atype := some "excess_moisture"
       severity := some "medium"
       title := some "Excess Soil Moisture"
       message := some ("Soil moisture very high (" ++ toString moisture ++
         "%). Risk of root rot and disease.")
       affectedComponent := some "soil"
       recommendedAction := some "Avoid irrigation, improve field drainage"
       validUntil := some (now + 48) }] else []
  a1 ++ a2

/-- Models `_detect_temperature_extremes`. -/
def detectTemperatureExtremes (weather : Option WeatherData) (now : ℤ) : List Alert :=
  let temp := weatherTemp weather
  let a1 : List Alert := if temp > 42 then
    [{ atype := some "heat_wave"
       severity := some "critical"
       title := some "Extreme Heat Warning"
       message := some ("Temperature at " ++ toString temp ++
         "°C. Crops under severe heat stress.")
       affectedComponent := some "crop"
       recommendedAction := some
         "Provide shade, increase irrigation frequency, spray water on leaves"
       validUntil := some (now + 24) }]
    else if temp > 38 then
    [{ atype := some "heat_stress"
       severity := some "high"
       title := some "High Temperature Alert"
       message := some ("Temperature at " ++ toString temp ++
         "°C. Crops may experience heat stress.")
       affectedComponent := some "crop"
       recommendedAction := some "Monitor crops closely, consider mulching"
       validUntil := some (now + 24) }] else []
  let a2 : List Alert := if temp < 4 then
    [{ atype := some "cold_wave"
       severity := some "critical"
       title := some "Frost/Cold Wave Warning"
       message := some ("Temperature dropped to " ++ toString temp ++
         "°C. Risk of frost damage.")
       affectedComponent := some "crop"
       recommendedAction := some "Cover sensitive crops, use smoke/fire for frost protection"
       validUntil := some (now + 24) }] else []
  a1 ++ a2

/-- The crop-disease table of `_get_crop_disease_info`, with its generic
fallback (`crop` may be Python `None`). -/
def getCropDiseaseInfo (crop : Option String) : List String × String :=
  match crop with
  | some "Rice" => (["Blast", "Brown Leaf Spot", "Bacterial Leaf Blight"],
      "Apply fungicide spray (Tricyclazole/Carbendazim)")
  | some "Wheat" => (["Rust", "Karnal Bunt", "Powdery Mildew"],
      "Monitor for rust, apply Propiconazole if detected")
  | some "Cotton" => (["Boll Rot", "Wilt", "Grey Mildew"],
      "Maintain field hygiene, apply appropriate fungicides")
  | some "Sugarcane" => (["Red Rot", "Smut", "Leaf Scald"],
      "Use healthy seed material, remove infected plants")
  | _ => (["Various fungal diseases"], "Apply preventive fungicide spray")

/-- Models `_detect_pest_disease_risk`. -/
def detectPestDiseaseRisk (weather : Option WeatherData) (_soil : Option SoilData)
    (satellite : Option SatelliteData) (crop : Option String) (now : ℤ) : List Alert :=
  let temp := weatherTemp weather
  let humidity := weatherHumidity weather
  let a1 : List Alert := if 70 ≤ humidity ∧ humidity ≤ 90 ∧ 25 ≤ temp ∧ temp ≤ 35 then
    let diseaseInfo := getCropDiseaseInfo crop
    [{ atype := some "disease_risk"
       severity := some "medium"
       title := some ("Disease Risk Alert for " ++ pyStr crop)
       message := some ("Humidity (" ++ toString humidity ++ "%) and temperature (" ++
         toString temp ++ "°C) favor disease development.")
       affectedComponent := some "crop"
       diseasesAtRisk := some diseaseInfo.1
       recommendedAction := some diseaseInfo.2
       validUntil := some (now + 48) }] else []
  let a2 : List Alert := if satStressLevel satellite == some "high" then
    [{ atype := some "crop_stress"
       severity := some "high"
       title := some "Crop Stress Detected"
       message := some "Satellite imagery indicates significant stress in crop canopy."
       affectedComponent := some "crop"
       recommendedAction := some "Conduct field inspection to identify cause of stress"
       validUntil := some (now + 72) }] else []
  a1 ++ a2

/-- The rule-evaluation order of `AlertAgent.execute` lines 82-86:
drought, then flood, then temperature extremes, then pest/disease. -/
def detectAllAlerts (crop : Option String) (weather : Option WeatherData)
    (soil : Option SoilData) (satellite : Option SatelliteData) (now : ℤ) : List Alert :=
  detectDroughtRisk weather soil now ++
  detectFloodRisk weather soil now ++
  detectTemperatureExtremes weather now ++
  detectPestDiseaseRisk weather soil satellite crop now

/-- Models `_generate_advance_alerts`: scans the first two forecast days;
note that these alerts carry a `timeframe` but no `valid_until` key. -/
def generateAdvanceAlerts (weather : Option WeatherData) : List Alert :=
  ((weatherForecastOf weather).take 2).enum.flatMap (fun di =>
    let day := di.2
    let hoursAhead := (di.1 + 1) * 24
    let rainProb := (day.rainProbability.getD 0)
    let temp := (day.temperature.getD 25)
    let a1 : List Alert := if rainProb > 80 then
      [{ atype := some "rain_forecast"
         severity := some "medium"
         title := some ("Heavy Rain Expected in " ++ toString hoursAhead ++ "h")
         message := some (toString rainProb ++
           "% chance of rain. Plan field activities accordingly.")
         timeframe := some (toString hoursAhead ++ " hours")
         recommendedAction := some
           "Delay pesticide/fertilizer application, ensure drainage" }] else []
    let a2 : List Alert := if temp > 40 then
      [{ atype := some "heat_forecast"
         severity := some "high"
         title := some ("Heat Wave Expected in " ++ toString hoursAhead ++ "h")
         message := some ("Temperature expected to reach " ++ toString temp ++ "°C.")
         timeframe := some (toString hoursAhead ++ " hours")
         recommendedAction := some "Prepare irrigation, arrange shade protection" }] else []
    a1 ++ a2)

/-- The `severity_order` rank of `_prioritize_alerts`, applied to an alert
exactly as the source does: `severity_order.get(x.get("severity", "low"), 4)`.
A missing severity therefore reads as `"low"` (rank 3), while a severity
string outside the table ranks 4. -/
def severityRankOf (a : Alert) : ℕ :=
  match a.severity.getD "low" with
  | "critical" => 0
  | "high" => 1
  | "medium" => 2
  | "low" => 3
  | _ => 4

/-- The total preorder induced by a natural-number sort key. -/
def keyLE {α : Type} (k : α → ℕ) : α → α → Prop := fun a b => k a ≤ k b

instance {α : Type} (k : α → ℕ) : DecidableRel (keyLE k) := fun a b => Nat.decLe (k a) (k b)

instance {α : Type} (k : α → ℕ) : IsTotal α (keyLE k) := ⟨fun a b => Nat.le_total (k a) (k b)⟩

instance {α : Type} (k : α → ℕ) : IsTrans α (keyLE k) := ⟨fun _ _ _ => Nat.le_trans⟩

/-- Models `_prioritize_alerts`: Python's `sorted` with the severity-rank
key.  `sorted` is a stable sort, and a stable sort by a total preorder is
computed exactly by insertion sort with that preorder. -/
def prioritizeAlerts (alerts : List Alert) : List Alert :=
  alerts.insertionSort (keyLE severityRankOf)

/-- The `risk_summary` block produced by `_generate_risk_summary`. -/
structure RiskSummary where
  overallRisk : String
  message : String
  activeAlertCount : ℕ
  advanceAlertCount : ℕ
  criticalAlerts : ℕ
  highAlerts : ℕ
deriving DecidableEq

/-- Models `_generate_risk_summary`. -/
def generateRiskSummary (alerts advanceAlerts : List Alert) : RiskSummary :=
  let criticalCount := alerts.countP (fun a => a.severity == some "critical")
  let highCount := alerts.countP (fun a => a.severity == some "high")
  let ov : String × String :=
    if criticalCount > 0 then
      ("critical", "Critical conditions detected! Immediate action required.")
    else if highCount > 0 then
      ("high", "High-risk conditions present. Take precautionary measures.")
    else if alerts.length > 0 then
      ("medium", "Some risk factors detected. Monitor situation closely.")
    else
      ("low", "No significant risks detected at this time.")
  { overallRisk := ov.1
    message := ov.2
    activeAlertCount := alerts.length
    advanceAlertCount := advanceAlerts.length
    criticalAlerts := criticalCount
    highAlerts := highCount }

/-- One entry of `_generate_notification_recommendations`. -/
structure NotifRec where
  channel : String
  priority : String
  message : String
deriving DecidableEq

/-- Models `_generate_notification_recommendations`. -/
def generateNotificationRecs (alerts : List Alert) : List NotifRec :=
  let r1 : List NotifRec := if alerts.any (fun a => a.severity == some "critical") then
    [⟨"SMS", "immediate", "Send immediate SMS alert to farmer"⟩,
     ⟨"Voice", "high", "Consider automated voice call for critical alert"⟩] else []
  let r2 := if alerts.any (fun a =>
      a.severity == some "high" ∨ a.severity == some "critical") then
    r1 ++ [⟨"App Notification", "high", "Send push notification with detailed instructions"⟩]
    else r1
  r2

/-- The output dict of `AlertAgent.execute`. -/
structure AlertResult where
  activeAlerts : List Alert
  alertCount : ℕ
  advanceAlerts : List Alert
  riskSummary : RiskSummary
  notificationRecommendations : List NotifRec
  timestamp : ℤ
deriving DecidableEq

/-- Models `AlertAgent.execute`: detect in rule order, compute advance
alerts, sort by severity, and summarise. -/
def alertAgentExecute (_state crop : Option String) (weather : Option WeatherData)
    (soil : Option SoilData) (satellite : Option SatelliteData) (now : ℤ) : AlertResult :=
  let alerts := detectAllAlerts crop weather soil satellite now
  let advanceAlerts := generateAdvanceAlerts weather
  let sortedAlerts := prioritizeAlerts alerts
  { activeAlerts := sortedAlerts
    alertCount := sortedAlerts.length
    advanceAlerts := advanceAlerts
    riskSummary := generateRiskSummary sortedAlerts advanceAlerts
    notificationRecommendations := generateNotificationRecs sortedAlerts
    timestamp := now }

/-! ### Weather collector (`weather_agent.py`) -/

/-- The explicit random draws consumed by one `_generate_simulated_weather`
call (per-index functions model the draws made inside the forecast loop). -/
structure WeatherRng where
  tempDraw : ℚ := 0
  humDraw : ℚ := 0
  pressDraw : ℚ := 0
  windDraw : ℚ := 0
  rainDraw : ℚ := 0
  cloudDraw : ℕ := 0
  descDraw : ℕ := 0
  fcTempDraw : ℕ → ℚ := fun _ => 0
  fcHumDraw : ℕ → ℚ := fun _ => 0
  fcRainDraw : ℕ → ℕ := fun _ => 0
  fcDescDraw : ℕ → ℕ := fun _ => 0

/-- Models `_get_weather_description` (a `random.choice` over one of three
option lists). -/
def getWeatherDescription (isMonsoon : Bool) (temp : ℚ) (draw : ℕ) : String :=
  if isMonsoon then
    choiceP ["light rain", "moderate rain", "heavy rain", "thunderstorm", "overcast clouds"]
      "light rain" draw
  else if temp > 35 then
    choiceP ["clear sky", "few clouds", "haze", "hot and sunny"] "clear sky" draw
  else
    choiceP ["clear sky", "few clouds", "scattered clouds", "partly cloudy"] "clear sky" draw

/-- Models `_generate_forecast` (five days; the source formats the date with
strftime, modelled here as the printed hour timestamp). -/
def generateForecast (currentTemp : ℚ) (isMonsoon : Bool) (now : ℤ)
    (rng : WeatherRng) : List ForecastDay :=
  (List.range 5).map (fun i =>
    let tempVariation := uniformQ (-3) 3 (rng.fcTempDraw i)
    { datetimeStr := some (toString (now + 24 * (i : ℤ)))
      temperature := some (round1 (currentTemp + tempVariation))
      humidity := some (round1 (60 + uniformQ (-15) 25 (rng.fcHumDraw i)))
      rainProbability := some (((if isMonsoon then randintP 60 95 (rng.fcRainDraw i)
        else randintP 5 30 (rng.fcRainDraw i)) : ℤ) : ℚ)
      description := some (getWeatherDescription isMonsoon (currentTemp + tempVariation)
        (rng.fcDescDraw i)) })

/-- Models `_generate_alerts` of the weather agent. -/
def generateWeatherAlerts (temp rainfall : ℚ) (isMonsoon : Bool) : List WeatherAlertItem :=
  let a1 : List WeatherAlertItem := if temp > 40 then
    [⟨"heat_wave", some "high",
      "Heat wave conditions expected. Protect crops with shade nets."⟩] else []
  let a2 : List WeatherAlertItem := if rainfall > 80 then
    [⟨"flood_risk", some "high",
      "Heavy rainfall may cause waterlogging. Ensure proper drainage."⟩]
    else if rainfall > 50 ∧ isMonsoon then
    [⟨"heavy_rain", some "medium",
      "Moderate to heavy rain expected. Delay pesticide application."⟩] else []
  a1 ++ a2

/-- Models `_generate_simulated_weather`: region/season priors plus bounded
randomness, tagged `data_source = "simulated"`.  Total by construction. -/
def generateSimulatedWeather (lat : ℚ) (month : ℕ) (now : ℤ)
    (rng : WeatherRng) : WeatherData :=
  let baseTemp0 : ℚ := 25 + (lat - 20) * (-0.5)
  let baseTemp := if month ∈ [3, 4, 5] then baseTemp0 + 10
    else if month ∈ [6, 7, 8, 9] then baseTemp0 + 5
    else if month ∈ [11, 12, 1, 2] then baseTemp0 - 5
    else baseTemp0
  let temperature := baseTemp + uniformQ (-3) 3 rng.tempDraw
  let humidity := 60 + uniformQ (-20) 30 rng.humDraw
  let isMonsoon := month ∈ [6, 7, 8, 9]
  let rainfall24 := if isMonsoon then uniformQ 10 100 rng.rainDraw
    else uniformQ 0 20 rng.rainDraw
  { current := some
      { temperature := some (round1 temperature)
        humidity := some (round1 humidity)
        pressure := some (round1 (1013 + uniformQ (-10) 10 rng.pressDraw))
        windSpeed := some (round1 (uniformQ 2 15 rng.windDraw))
        description := some (getWeatherDescription isMonsoon temperature rng.descDraw)
        clouds := some ((randintP 10 90 rng.cloudDraw : ℤ) : ℚ) }
    rainfall := some
      { last1h := some (round1 (rainfall24 / 24))
        last3h := some (round1 (rainfall24 / 8))
        last24h := some (round1 rainfall24) }
    forecast := generateForecast temperature isMonsoon now rng
    alerts := generateWeatherAlerts temperature rainfall24 isMonsoon
    timestamp := some now
    dataSource := some "simulated" }

/-- Models `WeatherAgent.execute`: resolve coordinates (a falsy `lat`/`lon`
falls back to the state's table entry), then attempt the live fetch when an
API key is configured, falling back to the simulation generator on any
fetch exception or when the key is the `"demo_key"` placeholder.  The
`fetchResult` parameter stands for the outcome `_fetch_real_weather` would
have (`Except.error` models a raised exception). -/
def weatherAgentExecute (apiKey : String) (fetchResult : Except String WeatherData)
    (state : Option String) (lat lon : Option ℚ) (month : ℕ) (now : ℤ)
    (rng : WeatherRng) : WeatherData :=
  let info := getStateInfo state
  let latV := if pyFalsyNum lat ∨ pyFalsyNum lon then info.lat else lat.getD 0
  if apiKey ≠ "demo_key" then
    match fetchResult with
    | .ok w => w
    | .error _ => generateSimulatedWeather latV month now rng
  else generateSimulatedWeather latV month now rng

/-! ### Soil collector (`soil_agent.py`) -/

/-- One record of the `SoilAgent.SOIL_TYPES` table. -/
structure SoilTypeInfo where
  phMin : ℚ
  phMax : ℚ
  moistureRetention : String
  fertility : String
deriving DecidableEq

/-- The `SoilAgent.SOIL_TYPES` table. -/
def SOIL_TYPES : List (String × SoilTypeInfo) :=
  [("Alluvial", ⟨6.5, 8.0, "high", "high"⟩),
   ("Black (Regur)", ⟨7.0, 8.5, "very_high", "high"⟩),
   ("Red", ⟨5.5, 7.0, "low", "medium"⟩),
   ("Laterite", ⟨5.0, 6.5, "low", "low"⟩),
   ("Desert", ⟨7.0, 9.0, "very_low", "low"⟩),
   ("Mountain", ⟨5.5, 7.5, "medium", "medium"⟩)]

/-- The `SoilAgent.STATE_SOIL_MAP` table, read with its `["Alluvial"]`
default (a Python `None` state also falls through to the default). -/
def stateSoilTypes (state : Option String) : List String :=
  match state with
  | some "Maharashtra" => ["Black (Regur)", "Alluvial", "Laterite"]
  | some "Punjab" => ["Alluvial"]
  | some "Uttar Pradesh" => ["Alluvial"]
  | some "Madhya Pradesh" => ["Black (Regur)", "Alluvial"]
  | some "Karnataka" => ["Red", "Black (Regur)", "Laterite"]
  | some "Gujarat" => ["Black (Regur)", "Alluvial", "Desert"]
  | some "Rajasthan" => ["Desert", "Alluvial"]
  | some "Tamil Nadu" => ["Red", "Alluvial", "Black (Regur)"]
  | some "Andhra Pradesh" => ["Red", "Black (Regur)", "Alluvial"]
  | some "West Bengal" => ["Alluvial", "Laterite"]
  | _ => ["Alluvial"]

/-- Direct index `SOIL_TYPES[primary_soil]`; every `stateSoilTypes` head is
a table key, so the fallback to the Alluvial record is never taken. -/
def soilTypeInfoOf (primarySoil : String) : SoilTypeInfo :=
  (((SOIL_TYPES.find? (fun p => p.1 == primarySoil)).map (·.2)).getD
    ⟨6.5, 8.0, "high", "high"⟩)

/-- Models `_get_current_season`. -/
def getCurrentSeason (month : ℕ) : String :=
  if month ∈ [6, 7, 8, 9, 10] then "Kharif"
  else if month ∈ [11, 12, 1, 2, 3] then "Rabi"
  else "Zaid"

/-- The `moisture_base` map of `_generate_soil_data` (every table retention
value is a key; 40 is the `"medium"` row). -/
def moistureBaseOf (retention : String) : ℚ :=
  if retention = "very_high" then 70
  else if retention = "high" then 55
  else if retention = "medium" then 40
  else if retention = "low" then 25
  else 15

/-- The `fertility_multiplier` map of `_generate_soil_data`. -/
def fertilityMultiplierOf (fertility : String) : ℚ :=
  if fertility = "high" then 1.2
  else if fertility = "medium" then 1.0
  else 0.7

/-- The `_get_optimal_moisture` table with its default (a `None` crop also
falls through to the default). -/
def getOptimalMoisture (crop : Option String) : ℚ × ℚ :=
  match crop with
  | some "Rice" => (60, 80)
  | some "Wheat" => (40, 60)
  | some "Cotton" => (35, 55)
  | some "Sugarcane" => (55, 75)
  | some "Soybean" => (45, 65)
  | some "Maize" => (40, 60)
  | some "Groundnut" => (35, 50)
  | _ => (40, 60)

/-- The `_get_optimal_ph` table with its default. -/
def getOptimalPh (crop : Option String) : ℚ × ℚ :=
  match crop with
  | some "Rice" => (5.5, 7.0)
  | some "Wheat" => (6.0, 7.5)
  | some "Cotton" => (6.0, 8.0)
  | some "Sugarcane" => (6.0, 7.5)
  | some "Soybean" => (6.0, 7.0)
  | some "Maize" => (5.8, 7.0)
  | some "Groundnut" => (5.5, 7.0)
  | _ => (6.0, 7.5)

/-- Models `_get_moisture_status`. -/
def getMoistureStatus (moisture : ℚ) (crop : Option String) : String :=
  let optimal := getOptimalMoisture crop
  if moisture < optimal.1 then "low"
  else if moisture > optimal.2 then "high"
  else "optimal"

/-- Models `_get_ph_status`. -/
def getPhStatus (ph : ℚ) (crop : Option String) : String :=
  let optimal := getOptimalPh crop
  if ph < optimal.1 then "acidic"
  else if ph > optimal.2 then "alkaline"
  else "optimal"

/-- Models `_get_nutrient_status` (thresholds per nutrient name, with the
generic `(100, 200)` fallback). -/
def getNutrientStatus (value : ℚ) (nutrient : String) : String :=
  let t : ℚ × ℚ :=
    if nutrient = "nitrogen" then (180, 250)
    else if nutrient = "phosphorus" then (20, 40)
    else if nutrient = "potassium" then (150, 220)
    else (100, 200)
  if value < t.1 then "deficient"
  else if value > t.2 then "sufficient"
  else "adequate"

/-- Models `_calculate_soil_health` (integer score with `randint(-5, 5)`
noise, clamped to `[0, 100]`). -/
def calculateSoilHealth (ph moisture nitrogen phosphorus potassium : ℚ)
    (crop : Option String) (noiseDraw : ℕ) : ℤ :=
  let s1 : ℤ := 100
  let optimalPh := getOptimalPh crop
  let s2 := if ph < optimalPh.1 ∨ ph > optimalPh.2 then s1 - 15 else s1
  let optimalMoisture := getOptimalMoisture crop
  let s3 := if moisture < optimalMoisture.1 then s2 - 20
    else if moisture > optimalMoisture.2 then s2 - 10
    else s2
  let s4 := if nitrogen < 180 then s3 - 15 else s3
  let s5 := if phosphorus < 20 then s4 - 10 else s4
  let s6 := if potassium < 150 then s5 - 10 else s5
  max 0 (min 100 (s6 + randintP (-5) 5 noiseDraw))

/-- The explicit random draws consumed by one `_generate_soil_data` call. -/
structure SoilRng where
  phDraw : ℚ := 0
  moistDraw : ℚ := 0
  nDraw : ℚ := 0
  pDraw : ℚ := 0
  kDraw : ℚ := 0
  ocDraw : ℚ := 0
  ecDraw : ℚ := 0
  healthNoise : ℕ := 0

/-- Models `_generate_soil_data` (without the recommendations, which
`SoilAgent.execute` appends afterwards). -/
def generateSoilData (state crop : Option String) (season : String) (now : ℤ)
    (rng : SoilRng) : SoilData :=
  let soilTypes := stateSoilTypes state
  let primarySoil := soilTypes.headD "Alluvial"
  let soilInfo := soilTypeInfoOf primarySoil
  let ph := round1 (uniformQ soilInfo.phMin soilInfo.phMax rng.phDraw)
  let moistureBase0 := moistureBaseOf soilInfo.moistureRetention
  let moistureBase := if season = "Kharif" then moistureBase0 + 15
    else if season = "Zaid" then moistureBase0 - 10
    else moistureBase0
  let moisture := min 95 (max 10 (moistureBase + uniformQ (-10) 10 rng.moistDraw))
  let mult := fertilityMultiplierOf soilInfo.fertility
  let nitrogen := round1 (uniformQ 150 280 rng.nDraw * mult)
  let phosphorus := round1 (uniformQ 10 50 rng.pDraw * mult)
  let potassium := round1 (uniformQ 100 250 rng.kDraw * mult)
  let healthScore := calculateSoilHealth ph moisture nitrogen phosphorus potassium
    crop rng.healthNoise
  let optM := getOptimalMoisture crop
  let optP := getOptimalPh crop
  { soilType := some primarySoil
    allSoilTypes := soilTypes
    moisture := some
      { current := some (round1 moisture)
        optimalMin := some optM.1
        optimalMax := some optM.2
        status := some (getMoistureStatus moisture crop) }
    ph := some
      { current := some ph
        optimalMin := some optP.1
        optimalMax := some optP.2
        status := some (getPhStatus ph crop) }
    npk := some
      { nitrogen := some
          { current := some nitrogen, unit := some "kg/ha"
            status := some (getNutrientStatus nitrogen "nitrogen") }
        phosphorus := some
          { current := some phosphorus, unit := some "kg/ha"
            status := some (getNutrientStatus phosphorus "phosphorus") }
        potassium := some
          { current := some potassium, unit := some "kg/ha"
            status := some (getNutrientStatus potassium "potassium") } }
    healthScore := some healthScore
    organicCarbon := some (round2 (uniformQ 0.3 1.5 rng.ocDraw))
    electricalConductivity := some (round2 (uniformQ 0.1 2.0 rng.ecDraw))
    season := some season
    timestamp := some now
    dataSource := some "simulated"
    recommendations := [] }

/-- Models `_generate_recommendations` of the soil agent (reads the status
fields back out of the just-built soil dict). -/
def generateSoilRecommendations (soilData : SoilData) (crop : Option String) :
    List SoilRecommendation :=
  let moistureStatus := ((soilData.moisture.bind (·.status)).getD "optimal")
  let moistureCurrent := ((soilData.moisture.bind (·.current)).getD 50)
  let phStatus := ((soilData.ph.bind (·.status)).getD "optimal")
  let phCurrent := ((soilData.ph.bind (·.current)).getD 7.0)
  let nStatus := (((soilData.npk.bind (·.nitrogen)).bind (·.status)).getD "adequate")
  let pStatus := (((soilData.npk.bind (·.phosphorus)).bind (·.status)).getD "adequate")
  let kStatus := (((soilData.npk.bind (·.potassium)).bind (·.status)).getD "adequate")
  let r1 : List SoilRecommendation := if moistureStatus = "low" then
    [{ rtype := some "irrigation", priority := some "high"
       message := some ("Soil moisture is low (" ++ toString moistureCurrent ++
         "%). Irrigate immediately.")
       action := some "Increase irrigation frequency" }]
    else if moistureStatus = "high" then
    [{ rtype := some "drainage", priority := some "medium"
       message := some ("Excess moisture detected (" ++ toString moistureCurrent ++
         "%). Improve drainage.")
       action := some "Create drainage channels" }] else []
  let r2 := if phStatus = "acidic" then
    r1 ++ [{ rtype := some "soil_amendment", priority := some "medium"
             message := some ("Soil is acidic (pH " ++ toString phCurrent ++ "). Apply lime.")
             action := some "Apply agricultural lime @ 2-4 tonnes/ha" }]
    else if phStatus = "alkaline" then
    r1 ++ [{ rtype := some "soil_amendment", priority := some "medium"
             message := some ("Soil is alkaline (pH " ++ toString phCurrent ++
               "). Apply gypsum.")
             action := some "Apply gypsum @ 2-3 tonnes/ha" }] else r1
  let r3 := if nStatus = "deficient" then
    r2 ++ [{ rtype := some "fertilizer", priority := some "high"
             message := some "Nitrogen deficiency detected."
             action := some ("Apply Urea @ 100-120 kg/ha for " ++ pyStr crop) }] else r2
  let r4 := if pStatus = "deficient" then
    r3 ++ [{ rtype := some "fertilizer", priority := some "high"
             message := some "Phosphorus deficiency detected."
             action := some "Apply DAP @ 50-60 kg/ha" }] else r3
  let r5 := if kStatus = "deficient" then
    r4 ++ [{ rtype := some "fertilizer", priority := some "medium"
             message := some "Potassium levels are low."
             action := some "Apply MOP @ 40-50 kg/ha" }] else r4
  if r5.isEmpty then
    [{ rtype := some "maintenance", priority := some "low"
       message := some "Soil conditions are optimal for crop growth."
       action := some "Continue current practices" }]
  else r5

/-- Models `SoilAgent.execute`: generate the soil snapshot for the state,
crop and season (the task carries no season, so the current-month season is
used), then attach recommendations. -/
def soilAgentExecute (state crop : Option String) (seasonOpt : Option String)
    (month : ℕ) (now : ℤ) (rng : SoilRng) : SoilData :=
  let season := seasonOpt.getD (getCurrentSeason month)
  let soilData := generateSoilData state crop season now rng
  { soilData with recommendations := generateSoilRecommendations soilData crop }

/-! ### Satellite collector (`satellite_agent.py`) -/

/-- One record of `SatelliteAgent.CROP_NDVI_OPTIMAL`. -/
structure CropNdviInfo where
  min : ℚ
  max : ℚ
  peakMonth : ℕ
deriving DecidableEq

/-- The `CROP_NDVI_OPTIMAL` table read with its
`(min 0.35, max 0.65, peak 8)` default. -/
def cropNdviOptimal (crop : Option String) : CropNdviInfo :=
  match crop with
  | some "Rice" => ⟨0.4, 0.7, 8⟩
  | some "Wheat" => ⟨0.35, 0.65, 2⟩
  | some "Cotton" => ⟨0.3, 0.6, 9⟩
  | some "Sugarcane" => ⟨0.45, 0.75, 10⟩
  | some "Soybean" => ⟨0.35, 0.6, 8⟩
  | some "Maize" => ⟨0.4, 0.7, 8⟩
  | some "Groundnut" => ⟨0.3, 0.55, 9⟩
  | _ => ⟨0.35, 0.65, 8⟩

/-- Models `_interpret_ndvi`: the first `NDVI_THRESHOLDS` band (in table
order) containing the value, title-cased; `"Unknown"` if none matches. -/
def interpretNdvi (ndvi : ℚ) : String :=
  if -1.0 ≤ ndvi ∧ ndvi < 0.1 then "Water Barren"
  else if 0.1 ≤ ndvi ∧ ndvi < 0.2 then "Sparse Vegetation"
  else if 0.2 ≤ ndvi ∧ ndvi < 0.4 then "Moderate Vegetation"
  else if 0.4 ≤ ndvi ∧ ndvi < 0.6 then "Dense Vegetation"
  else if 0.6 ≤ ndvi ∧ ndvi < 1.0 then "Very Dense Vegetation"
  else "Unknown"

/-- Models `_get_ndvi_status`. -/
def getNdviStatus (ndvi : ℚ) (cropInfo : CropNdviInfo) : String :=
  if ndvi < cropInfo.min then "below_optimal"
  else if ndvi > cropInfo.max then "above_optimal"
  else "optimal"

/-- Models `_calculate_health_score` of the satellite agent (deviation from
the optimal NDVI band, `uniform(-5, 5)` noise, truncated to int and clamped
to `[0, 100]`). -/
def calculateHealthScore (ndvi : ℚ) (cropInfo : CropNdviInfo) (noiseDraw : ℚ) : ℤ :=
  let optimalMid := (cropInfo.min + cropInfo.max) / 2
  let optimalRange := cropInfo.max - cropInfo.min
  let deviation := |ndvi - optimalMid| / optimalRange
  let baseScore := 100 - deviation * 50
  let score := baseScore + uniformQ (-5) 5 noiseDraw
  max 0 (min 100 (pyInt score))

/-- Models `_get_health_status`. -/
def getHealthStatus (score : ℤ) : String :=
  if score ≥ 80 then "excellent"
  else if score ≥ 60 then "good"
  else if score ≥ 40 then "moderate"
  else if score ≥ 20 then "poor"
  else "critical"

/-- The `state_areas` table of `_generate_coverage_data`, read with its
`10000000` default. -/
def stateAreaOf (state : Option String) : ℚ :=
  match state with
  | some "Maharashtra" => 22500000
  | some "Punjab" => 4200000
  | some "Uttar Pradesh" => 17500000
  | some "Madhya Pradesh" => 15000000
  | some "Karnataka" => 10200000
  | some "Gujarat" => 9800000
  | some "Rajasthan" => 21000000
  | some "Tamil Nadu" => 5800000
  | some "Andhra Pradesh" => 7500000
  | some "West Bengal" => 5400000
  | _ => 10000000

/-- The explicit random draws consumed by one `_generate_satellite_analysis`
call. -/
structure SatRng where
  ndviDraw : ℚ := 0
  healthDraw : ℚ := 0
  cropAreaDraw : ℚ := 0
  healthyDraw : ℚ := 0
  fallowDraw : ℚ := 0
  cloudDraw : ℚ := 0
  stressDraw1 : ℚ := 0
  stressDraw2 : ℚ := 0
  stressDraw3 : ℚ := 0
  sevDraw1 : ℕ := 0
  sevDraw2 : ℕ := 0
  areaDraw1 : ℚ := 0
  areaDraw2 : ℚ := 0
  areaDraw3 : ℚ := 0
  imageryDays : ℕ := 0
  daysInStageDraw : ℕ := 0
  daysRemainingDraw : ℕ := 0

/-- Models `_generate_coverage_data`. -/
def generateCoverageData (state : Option String) (ndvi : ℚ) (rng : SatRng) :
    CoverageInfo :=
  let totalArea := stateAreaOf state
  let cropArea := totalArea * uniformQ 0.1 0.25 rng.cropAreaDraw
  let healthyPercentage := min 95 (max 40 (ndvi * 100 + uniformQ 10 20 rng.healthyDraw))
  { totalAgriculturalArea := round2 (totalArea / 100000)
    cropArea := round2 (cropArea / 100000)
    healthyAreaPercentage := round1 healthyPercentage
    stressedAreaPercentage := round1 (100 - healthyPercentage)
    fallowLandPercentage := round1 (uniformQ 5 15 rng.fallowDraw) }

/-- Models `_calculate_overall_stress`. -/
def calculateOverallStress (stressTypes : List StressArea) : String :=
  if stressTypes.isEmpty then "none"
  else
    let severityScore : ℚ := stressTypes.foldl (fun acc s =>
      if s.severity == some "high" then acc + 3
      else if s.severity == some "medium" then acc + 2
      else acc + 1) 0
    let avgScore := severityScore / (stressTypes.length : ℚ)
    if avgScore ≥ 2.5 then "high"
    else if avgScore ≥ 1.5 then "medium"
    else "low"

/-- Models `_detect_stress_areas` (each rule fires on a `random.random()`
draw exceeding its threshold; the source's `ndvi` and `state` parameters are
unused there). -/
def detectStressAreas (_ndvi : ℚ) (healthScore : ℤ) (rng : SatRng) : StressAnalysis :=
  let s1 : List StressArea := if rng.stressDraw1 > 0.6 then
    [{ stype := some "water_stress"
       severity := some (choiceP ["low", "medium", "high"] "low" rng.sevDraw1)
       affectedAreaPercentage := some (round1 (uniformQ 5 25 rng.areaDraw1))
       description := some "Areas showing signs of water stress" }] else []
  let s2 := if rng.stressDraw2 > 0.7 then
    s1 ++ [{ stype := some "nutrient_deficiency"
             severity := some (choiceP ["low", "medium"] "low" rng.sevDraw2)
             affectedAreaPercentage := some (round1 (uniformQ 3 15 rng.areaDraw2))
             description := some "Possible nutrient deficiency detected" }] else s1
  let s3 := if rng.stressDraw3 > 0.8 ∧ healthScore < 70 then
    s2 ++ [{ stype := some "pest_disease_risk"
             severity := some "medium"
             affectedAreaPercentage := some (round1 (uniformQ 2 10 rng.areaDraw3))
             description := some "Unusual patterns suggesting pest or disease pressure" }]
    else s2
  { stressDetected := some (s3.length > 0)
    stressCount := some s3.length
    stressAreas := s3
    overallStressLevel := some (calculateOverallStress s3) }

/-- Models `_determine_growth_stage`: the source builds a per-crop calendar
table but never consults it and always returns the default stage record. -/
def determineGrowthStage (rng : SatRng) : GrowthStage :=
  { currentStage := some "Active Growth"
    daysInStage := some (randintP 10 30 rng.daysInStageDraw)
    expectedDaysRemaining := some (randintP 15 45 rng.daysRemainingDraw)
    nextStage := some "Maturation" }

/-- Models `_generate_satellite_analysis` (the unread
`historical_comparison` block and constant imagery metadata strings are not
carried in the embedding).  Total by construction. -/
def generateSatelliteAnalysis (state crop : Option String) (lat lon : ℚ)
    (month : ℕ) (now : ℤ) (rng : SatRng) : SatelliteData :=
  let cropInfo := cropNdviOptimal crop
  let monthsFromPeak0 := ((month : ℤ) - (cropInfo.peakMonth : ℤ)).natAbs
  let monthsFromPeak := if monthsFromPeak0 > 6 then 12 - monthsFromPeak0 else monthsFromPeak0
  let growthFactor : ℚ := 1 - ((monthsFromPeak : ℚ) / 6) * 0.4
  let baseNdvi := (cropInfo.min + cropInfo.max) / 2
  let ndvi0 := baseNdvi * growthFactor + uniformQ (-0.1) 0.1 rng.ndviDraw
  let ndvi := max 0.1 (min 0.9 ndvi0)
  let healthScore := calculateHealthScore ndvi cropInfo rng.healthDraw
  { ndvi := some
      { current := some (round3 ndvi)
        interpretation := some (interpretNdvi ndvi)
        optimalMin := some cropInfo.min
        optimalMax := some cropInfo.max
        status := some (getNdviStatus ndvi cropInfo) }
    healthScore := some healthScore
    healthStatus := some (getHealthStatus healthScore)
    coverage := some (generateCoverageData state ndvi rng)
    stressAnalysis := some (detectStressAreas ndvi healthScore rng)
    growthStage := some (determineGrowthStage rng)
    imageryDate := some (now - 24 * (1 + (rng.imageryDays % 5) : ℤ))
    cloudCover := some (round1 (uniformQ 0 25 rng.cloudDraw))
    lat := some lat
    lon := some lon
    timestamp := some now
    dataSource := some "simulated" }

/-- Models `SatelliteAgent.execute` (same falsy-coordinate fallback as the
weather agent). -/
def satelliteAgentExecute (state crop : Option String) (lat lon : Option ℚ)
    (month : ℕ) (now : ℤ) (rng : SatRng) : SatelliteData :=
  let info := getStateInfo state
  let latV := if pyFalsyNum lat ∨ pyFalsyNum lon then info.lat else lat.getD 0
  let lonV := if pyFalsyNum lat ∨ pyFalsyNum lon then info.lon else lon.getD 0
  generateSatelliteAnalysis state crop latV lonV month now rng

/-! ### Response renderer (`response_agent.py`) -/

/-- One language row of `ResponseAgent.TRANSLATIONS` (the greeting template
is modelled as a function of the crop and state names it interpolates). -/
structure Translation where
  greeting : String → String → String
  yieldGood : String
  yieldModerate : String
  yieldPoor : String
  riskLow : String
  riskMedium : String
  riskHigh : String
  recommendation : String
  weatherSummary : String
  soilSummary : String
  cropHealth : String
  needAction : String
  noAction : String
  unitTemperature : String
  unitHumidity : String
  unitRainfall : String
  unitYield : String

/-- The English row of `TRANSLATIONS` (the source greeting contracts
"Here is"; the contraction is written out in this embedding). -/
def enTranslation : Translation :=
  { greeting := fun crop state =>
      "Hello! Here is your crop analysis for " ++ crop ++ " in " ++ state ++ ":"
    yieldGood := "Good news! The expected yield is above average."
    yieldModerate := "The expected yield is around the historical average."
    yieldPoor := "Caution: The expected yield may be below average."
    riskLow := "Risk Level: Low ✅"
    riskMedium := "Risk Level: Moderate ⚠️"
    riskHigh := "Risk Level: High 🔴"
    recommendation := "Recommendation"
    weatherSummary := "Weather Summary"
    soilSummary := "Soil Conditions"
    cropHealth := "Crop Health"
    needAction := "Action Required"
    noAction := "No immediate action needed"
    unitTemperature := "°C"
    unitHumidity := "%"
    unitRainfall := "mm"
    unitYield := "tonnes/ha" }

/-- The Hindi row of `TRANSLATIONS`. -/
def hiTranslation : Translation :=
  { greeting := fun crop state =>
      "नमस्ते! " ++ state ++ " में " ++ crop ++ " के लिए आपका फसल विश्लेषण:"
    yieldGood := "अच्छी खबर! अपेक्षित उपज औसत से अधिक है।"
    yieldModerate := "अपेक्षित उपज ऐतिहासिक औसत के आसपास है।"
    yieldPoor := "सावधान: अपेक्षित उपज औसत से कम हो सकती है।"
    riskLow := "जोखिम स्तर: कम ✅"
    riskMedium := "जोखिम स्तर: मध्यम ⚠️"
    riskHigh := "जोखिम स्तर: उच्च 🔴"
    recommendation := "सिफारिश"
    weatherSummary := "मौसम सारांश"
    soilSummary := "मिट्टी की स्थिति"
    cropHealth := "फसल स्वास्थ्य"
    needAction := "कार्रवाई आवश्यक"
    noAction := "तत्काल कार्रवाई की आवश्यकता नहीं"
    unitTemperature := "°से"
    unitHumidity := "%"
    unitRainfall := "मिमी"
    unitYield := "टन/हेक्टेयर" }

/-- The Marathi row of `TRANSLATIONS`. -/
def mrTranslation : Translation :=
  { greeting := fun crop state =>
      "नमस्कार! " ++ state ++ " मधील " ++ crop ++ " साठी तुमचे पीक विश्लेषण:"
    yieldGood := "चांगली बातमी! अपेक्षित उत्पादन सरासरीपेक्षा जास्त आहे."
    yieldModerate := "अपेक्षित उत्पादन ऐतिहासिक सरासरीच्या आसपास आहे."
    yieldPoor := "सावधान: अपेक्षित उत्पादन सरासरीपेक्षा कमी असू शकते."
    riskLow := "जोखीम पातळी: कमी ✅"
    riskMedium := "जोखीम पातळी: मध्यम ⚠️"
    riskHigh := "जोखीम पातळी: उच्च 🔴"
    recommendation := "शिफारस"
    weatherSummary := "हवामान सारांश"
    soilSummary := "माती स्थिती"
    cropHealth := "पीक आरोग्य"
    needAction := "कृती आवश्यक"
    noAction := "तात्काळ कृतीची गरज नाही"
    unitTemperature := "°से"
    unitHumidity := "%"
    unitRainfall := "मिमी"
    unitYield := "टन/हेक्टर" }

/-- Models `TRANSLATIONS.get(language, TRANSLATIONS["en"])`. -/
def translationOf (language : String) : Translation :=
  if language = "en" then enTranslation
  else if language = "hi" then hiTranslation
  else if language = "mr" then mrTranslation
  else enTranslation

/-- The `ResponseAgent.STATE_NAMES` translation table. -/
def STATE_NAMES : List (String × List (String × String)) :=
  [("Maharashtra", [("hi", "महाराष्ट्र"), ("mr", "महाराष्ट्र")]),
   ("Punjab", [("hi", "पंजाब"), ("mr", "पंजाब")]),
   ("Uttar Pradesh", [("hi", "उत्तर प्रदेश"), ("mr", "उत्तर प्रदेश")]),
   ("Madhya Pradesh", [("hi", "मध्य प्रदेश"), ("mr", "मध्य प्रदेश")]),
   ("Karnataka", [("hi", "कर्नाटक"), ("mr", "कर्नाटक")]),
   ("Gujarat", [("hi", "गुजरात"), ("mr", "गुजरात")]),
   ("Rajasthan", [("hi", "राजस्थान"), ("mr", "राजस्थान")]),
   ("Tamil Nadu", [("hi", "तमिलनाडु"), ("mr", "तामिळनाडू")]),
   ("Andhra Pradesh", [("hi", "आंध्र प्रदेश"), ("mr", "आंध्र प्रदेश")]),
   ("West Bengal", [("hi", "पश्चिम बंगाल"), ("mr", "पश्चिम बंगाल")])]

/-- The `ResponseAgent.CROP_NAMES` translation table. -/
def CROP_NAMES : List (String × List (String × String)) :=
  [("Rice", [("hi", "चावल"), ("mr", "तांदूळ")]),
   ("Wheat", [("hi", "गेहूं"), ("mr", "गहू")]),
   ("Cotton", [("hi", "कपास"), ("mr", "कापूस")]),
   ("Sugarcane", [("hi", "गन्ना"), ("mr", "ऊस")]),
   ("Soybean", [("hi", "सोयाबीन"), ("mr", "सोयाबीन")]),
   ("Maize", [("hi", "मक्का"), ("mr", "मका")]),
   ("Groundnut", [("hi", "मूंगफली"), ("mr", "भुईमूग")])]

/-- Models `_translate_name` (a Python `None` name passes through as
`None`, matching `mapping.get(None, \x7b\x7d).get(language, None)`). -/
def translateName (name : Option String) (language : String)
    (mapping : List (String × List (String × String))) : Option String :=
  if language = "en" then name
  else match name with
    | some n => some ((((((mapping.find? (fun p => p.1 == n)).map (·.2)).getD
        []).find? (fun q => q.1 == language)).map (·.2)).getD n)
    | none => none

/-! Consumer-side accessors on the renderer's prediction/alert inputs
(a `none` value models a missing or empty dict). -/

/-- Reads `prediction.get("yield_prediction", \x7b\x7d).get("predicted", 0)`. -/
def predPredicted (p : Option Prediction) : ℚ :=
  ((p.map (·.yieldPrediction.predicted)).getD 0)

/-- Reads `prediction.get("yield_prediction", \x7b\x7d).get("comparison_to_average", 0)`. -/
def predComparison (p : Option Prediction) : ℚ :=
  ((p.map (·.yieldPrediction.comparisonToAverage)).getD 0)

/-- Reads `prediction.get("risk_assessment", \x7b\x7d).get("overall_risk_score", 30)`. -/
def predRiskScore (p : Option Prediction) : ℚ :=
  ((p.map (·.riskAssessment.overallRiskScore)).getD 30)

/-- Reads `prediction.get("confidence", \x7b\x7d).get("score", 70)`. -/
def predConfidenceScore (p : Option Prediction) : ℤ :=
  ((p.map (·.confidence.score)).getD 70)

/-- Reads `alerts.get("alert_count", 0)`. -/
def alertCountOf (a : Option AlertResult) : ℕ :=
  ((a.map (·.alertCount)).getD 0)

/-- Models `_build_summary_text` (crop and state arrive already translated
and may be Python `None`, printed as `None`). -/
def buildSummaryText (language : String) (crop state : Option String)
    (prediction : Option Prediction) (alerts : Option AlertResult) : String :=
  let predicted := predPredicted prediction
  let unit := ((prediction.map (·.yieldPrediction.unit)).getD "tonnes/ha")
  let confidence := predConfidenceScore prediction
  let riskLevel := ((prediction.map (·.riskAssessment.riskLevel)).getD "moderate")
  let alertCount := alertCountOf alerts
  if language = "en" then
    "Based on current weather, soil, and satellite data, the predicted yield for " ++
      pyStr crop ++ " in " ++ pyStr state ++ " is " ++ toString predicted ++ " " ++
      unit ++ ". " ++
    "Our confidence in this prediction is " ++ toString confidence ++ "%. " ++
    (if riskLevel = "low" ∨ riskLevel = "moderate" then
      "Overall conditions look favorable. "
     else "There are " ++ toString alertCount ++ " alerts requiring attention. ")
  else if language = "hi" then
    "वर्तमान मौसम, मिट्टी और उपग्रह डेटा के आधार पर, " ++ pyStr state ++ " में " ++
      pyStr crop ++ " की अनुमानित उपज " ++ toString predicted ++ " टन/हेक्टेयर है। " ++
    "इस भविष्यवाणी में हमारा विश्वास " ++ toString confidence ++ "% है। " ++
    (if riskLevel = "low" ∨ riskLevel = "moderate" then
      "समग्र स्थितियां अनुकूल दिखती हैं। "
     else toString alertCount ++ " अलर्ट हैं जिन पर ध्यान देने की आवश्यकता है। ")
  else
    "सध्याच्या हवामान, माती आणि उपग्रह डेटावर आधारित, " ++ pyStr state ++ " मधील " ++
      pyStr crop ++ " साठी अंदाजे उत्पादन " ++ toString predicted ++ " टन/हेक्टर आहे। " ++
    "या अंदाजात आमचा विश्वास " ++ toString confidence ++ "% आहे। " ++
    (if riskLevel = "low" ∨ riskLevel = "moderate" then
      "एकंदर परिस्थिती अनुकूल दिसत आहे। "
     else toString alertCount ++ " सूचना आहेत ज्यांवर लक्ष देणे आवश्यक आहे। ")

/-- Models `_get_weather_icon`. -/
def getWeatherIcon (description : String) : String :=
  let d := strLower description
  if strContains d "rain" then "🌧️"
  else if strContains d "thunder" then "⛈️"
  else if strContains d "cloud" then "☁️"
  else if strContains d "sun" ∨ strContains d "clear" then "☀️"
  else if strContains d "hot" ∨ strContains d "heat" then "🌡️"
  else "🌤️"

/-- Models `_get_alert_icon` (missing or unknown severities get the
megaphone default). -/
def getAlertIcon (severity : Option String) : String :=
  match severity with
  | some "critical" => "🚨"
  | some "high" => "⚠️"
  | some "medium" => "⚡"
  | some "low" => "ℹ️"
  | _ => "📢"

/-- Models `_get_alert_color`. -/
def getAlertColor (severity : Option String) : String :=
  match severity with
  | some "critical" => "#FF0000"
  | some "high" => "#FF6600"
  | some "medium" => "#FFCC00"
  | some "low" => "#00CC00"
  | _ => "#888888"

/-- The `summary` block of the rendered response. -/
structure SummaryBlock where
  text : String
  yieldMessage : String
  riskMessage : String
deriving DecidableEq

/-- One value/unit/display triple of a display card. -/
structure DisplayValue where
  value : ℚ
  unit : String
  display : String
deriving DecidableEq

/-- The `weather_card` block. -/
structure WeatherCard where
  title : String
  temperature : DisplayValue
  humidity : DisplayValue
  rainfall24h : DisplayValue
  description : String
  icon : String
deriving DecidableEq

/-- The `npk_summary` block of the soil card. -/
structure NpkSummary where
  nitrogen : String
  phosphorus : String
  potassium : String
deriving DecidableEq

/-- The `soil_card` block. -/
structure SoilCard where
  title : String
  stype : String
  moistureValue : ℚ
  moistureStatus : String
  moistureDisplay : String
  phValue : ℚ
  phStatus : String
  phDisplay : String
  healthScore : ℤ
  npkSummary : NpkSummary
deriving DecidableEq

/-- The `crop_health_card` block. -/
structure CropHealthCard where
  title : String
  ndviValue : ℚ
  ndviInterpretation : String
  ndviStatus : String
  healthScore : ℤ
  healthStatus : String
  growthStage : String
  stressDetected : Bool
  coverage : Option CoverageInfo
deriving DecidableEq

/-- The `prediction_details` block. -/
structure PredictionDetails where
  predicted : ℚ
  unit : String
  rangeLower : ℚ
  rangeUpper : ℚ
  vsAverage : ℚ
  production : Option ProductionForecast
  risk : Option RiskAssessment
  outlook : String
  factorScores : Option FactorScores
deriving DecidableEq

/-- One entry of `alerts_formatted`. -/
structure FormattedAlert where
  atype : Option String
  severity : Option String
  title : Option String
  message : Option String
  action : Option String
  icon : String
  color : String
deriving DecidableEq

/-- One threshold of the yield gauge chart. -/
structure GaugeThreshold where
  value : ℚ
  color : String
deriving DecidableEq

/-- The `yield_gauge` chart. -/
structure YieldGauge where
  ctype : String
  value : ℚ
  minValue : ℚ
  maxValue : ℚ
  thresholds : List GaugeThreshold
deriving DecidableEq

/-- The `factor_scores` radar chart. -/
structure RadarChart where
  ctype : String
  labels : List String
  values : List ℚ
deriving DecidableEq

/-- One dataset of the forecast line chart. -/
structure LineDataset where
  label : String
  data : List ℚ
deriving DecidableEq

/-- The `weather_forecast` line chart. -/
structure LineChart where
  ctype : String
  labels : List String
  datasets : List LineDataset
deriving DecidableEq

/-- The `soil_nutrients` bar chart. -/
structure BarChart where
  ctype : String
  labels : List String
  values : List ℚ
deriving DecidableEq

/-- The `risk_breakdown` doughnut chart. -/
structure DoughnutChart where
  ctype : String
  labels : List String
  values : List ℚ
deriving DecidableEq

/-- The `charts` block. -/
structure ChartsData where
  yieldGauge : YieldGauge
  factorScores : RadarChart
  weatherForecast : LineChart
  soilNutrients : BarChart
  riskBreakdown : DoughnutChart
deriving DecidableEq

/-- One entry of the merged `recommendations` list. -/
structure RecommendationItem where
  category : Option String
  priority : Option String
  action : Option String
  impact : Option String
  icon : String
deriving DecidableEq

/-- The `irrigation_advice` block. -/
structure IrrigationAdvice where
  action : String
  urgency : String
  message : String
  timing : String
  amount : String
deriving DecidableEq

/-- The `confidence` block of the rendered response. -/
structure ConfidenceDisplay where
  score : ℤ
  level : String
  display : String
deriving DecidableEq

/-- The full output dict of `_format_complete_response`
(the `RenderedResponse`). -/
structure RenderedResponse where
  query : String
  language : String
  greeting : String
  summary : SummaryBlock
  weatherCard : WeatherCard
  soilCard : SoilCard
  cropHealthCard : CropHealthCard
  predictionDetails : PredictionDetails
  alertsFormatted : List FormattedAlert
  charts : ChartsData
  recommendations : List RecommendationItem
  irrigationAdvice : IrrigationAdvice
  confidence : ConfidenceDisplay
  timestamp : ℤ
deriving DecidableEq

/-- Models `_format_weather_card`. -/
def formatWeatherCard (weather : Option WeatherData) (t : Translation) : WeatherCard :=
  let temp := weatherTemp weather
  let hum := weatherHumidity weather
  let rain := (((weather.bind (·.rainfall)).bind (·.last24h)).getD 0)
  let desc := (((weather.bind (·.current)).bind (·.description)).getD "Clear")
  let descIcon := (((weather.bind (·.current)).bind (·.description)).getD "clear")
  { title := t.weatherSummary
    temperature := ⟨temp, t.unitTemperature, toString temp ++ t.unitTemperature⟩
    humidity := ⟨hum, t.unitHumidity, toString hum ++ t.unitHumidity⟩
    rainfall24h := ⟨rain, t.unitRainfall, toString rain ++ t.unitRainfall⟩
    description := desc
    icon := getWeatherIcon descIcon }

/-- Models `_format_npk_summary`. -/
def formatNpkSummary (npk : Option NpkInfo) : NpkSummary :=
  { nitrogen := (((npk.bind (·.nitrogen)).bind (·.status)).getD "adequate")
    phosphorus := (((npk.bind (·.phosphorus)).bind (·.status)).getD "adequate")
    potassium := (((npk.bind (·.potassium)).bind (·.status)).getD "adequate") }

/-- Models `_format_soil_card`. -/
def formatSoilCard (soil : Option SoilData) (t : Translation) : SoilCard :=
  let mv := soilMoistureCurrent soil
  let ph := (((soil.bind (·.ph)).bind (·.current)).getD 7.0)
  { title := t.soilSummary
    stype := ((soil.bind (·.soilType)).getD "Unknown")
    moistureValue := mv
    moistureStatus := soilMoistureStatus soil
    moistureDisplay := toString mv ++ "%"
    phValue := ph
    phStatus := soilPhStatus soil
    phDisplay := toString ph
    healthScore := soilHealthScoreOf soil
    npkSummary := formatNpkSummary (soil.bind (·.npk)) }

/-- Models `_format_crop_health_card`. -/
def formatCropHealthCard (satellite : Option SatelliteData) (t : Translation) :
    CropHealthCard :=
  { title := t.cropHealth
    ndviValue := (((satellite.bind (·.ndvi)).bind (·.current)).getD 0.5)
    ndviInterpretation := (((satellite.bind (·.ndvi)).bind (·.interpretation)).getD "Moderate")
    ndviStatus := satNdviStatus satellite
    healthScore := satHealthScoreOf satellite
    healthStatus := ((satellite.bind (·.healthStatus)).getD "good")
    growthStage := (((satellite.bind (·.growthStage)).bind (·.currentStage)).getD
      "Active Growth")
    stressDetected := (((satellite.bind (·.stressAnalysis)).bind
      (·.stressDetected)).getD false)
    coverage := (satellite.bind (·.coverage)) }

/-- Models `_format_prediction_details`. -/
def formatPredictionDetails (prediction : Option Prediction) : PredictionDetails :=
  { predicted := predPredicted prediction
    unit := ((prediction.map (·.yieldPrediction.unit)).getD "tonnes/ha")
    rangeLower := ((prediction.map (·.yieldPrediction.confidenceInterval.lower)).getD 0)
    rangeUpper := ((prediction.map (·.yieldPrediction.confidenceInterval.upper)).getD 0)
    vsAverage := predComparison prediction
    production := (prediction.map (·.productionForecast))
    risk := (prediction.map (·.riskAssessment))
    outlook := ((prediction.map (·.outlook)).getD "")
    factorScores := (prediction.map (·.factorScores)) }

/-- Models `_format_alerts`. -/
def formatAlerts (alerts : Option AlertResult) : List FormattedAlert :=
  ((alerts.map (·.activeAlerts)).getD []).map (fun a =>
    { atype := a.atype
      severity := a.severity
      title := a.title
      message := a.message
      action := a.recommendedAction
      icon := getAlertIcon a.severity
      color := getAlertColor a.severity })

/-- Models `_generate_charts_data`. -/
def generateChartsData (weather : Option WeatherData) (soil : Option SoilData)
    (_satellite : Option SatelliteData) (prediction : Option Prediction) : ChartsData :=
  let histAvg := ((prediction.map (·.yieldPrediction.historicalAverage)).getD 2.5)
  let maxPot := ((prediction.map (·.yieldPrediction.maximumPotential)).getD 5)
  let forecast := weatherForecastOf weather
  let factors := ((prediction.map (·.riskAssessment.factors)).getD [])
  { yieldGauge :=
      { ctype := "gauge"
        value := predPredicted prediction
        minValue := 0
        maxValue := maxPot
        thresholds :=
          [⟨histAvg * 0.8, "#FF6B6B"⟩, ⟨histAvg, "#FFD93D"⟩, ⟨maxPot, "#6BCB77"⟩] }
    factorScores :=
      { ctype := "radar"
        labels := ["Weather", "Soil", "Crop Health", "Season"]
        values :=
          [((prediction.map (·.factorScores.weatherImpact)).getD 70),
           ((prediction.map (·.factorScores.soilHealth)).getD 70),
           ((prediction.map (·.factorScores.cropCondition)).getD 70),
           ((prediction.map (·.factorScores.seasonalFavorability)).getD 70)] }
    weatherForecast :=
      { ctype := "line"
        labels := forecast.map (fun f => (f.datetimeStr.getD "").take 10)
        datasets :=
          [⟨"Temperature", forecast.map (fun f => f.temperature.getD 25)⟩,
           ⟨"Rain Probability", forecast.map (fun f => f.rainProbability.getD 0)⟩] }
    soilNutrients :=
      { ctype := "bar"
        labels := ["Nitrogen", "Phosphorus", "Potassium"]
        values :=
          [((((soil.bind (·.npk)).bind (·.nitrogen)).bind (·.current)).getD 200),
           ((((soil.bind (·.npk)).bind (·.phosphorus)).bind (·.current)).getD 30) * 5,
           ((((soil.bind (·.npk)).bind (·.potassium)).bind (·.current)).getD 180)] }
    riskBreakdown :=
      { ctype := "doughnut"
        labels := factors.map (·.factor)
        values := factors.map (fun _ => 1) } }

/-- Upper-cases one ASCII character. -/
def charUpper (c : Char) : Char :=
  if 'a' ≤ c ∧ c ≤ 'z' then Char.ofNat (c.toNat - 32) else c

/-- Models Python `s.title()` on the space-separated lowercase words it is
applied to here. -/
def pyTitle (s : String) : String :=
  String.intercalate " " ((s.splitOn " ").map (fun w =>
    match w.toList with
    | [] => ""
    | c :: cs => String.mk (charUpper c :: cs)))

/-- Models `rec.get("type", "").replace("_", " ").title()` for the soil
recommendation categories. -/
def soilRecCategory (rtype : Option String) : String :=
  pyTitle (((rtype.getD "").splitOn "_").foldr
    (fun w acc => if acc = "" then w else w ++ " " ++ acc) "")

/-- The priority rank of `_format_recommendations`:
`dict(high 0, medium 1, low 2).get(x.get("priority", "low"), 3)`. -/
def priorityRankOf (r : RecommendationItem) : ℕ :=
  match r.priority.getD "low" with
  | "high" => 0
  | "medium" => 1
  | "low" => 2
  | _ => 3

/-- Models `_format_recommendations`: prediction-agent recommendations, then
soil-agent recommendations, stably sorted by priority rank. -/
def formatRecommendations (prediction : Option Prediction) (soil : Option SoilData)
    (_alerts : Option AlertResult) : List RecommendationItem :=
  let fromPrediction := ((prediction.map (·.recommendations)).getD []).map (fun r =>
    ({ category := some r.category
       priority := some r.priority
       action := some r.action
       impact := some r.expectedImpact
       icon := "📋" } : RecommendationItem))
  let fromSoil := ((soil.map (·.recommendations)).getD []).map (fun r =>
    ({ category := some (soilRecCategory r.rtype)
       priority := r.priority
       action := r.action
       impact := r.message
       icon := "🌱" } : RecommendationItem))
  (fromPrediction ++ fromSoil).insertionSort (keyLE priorityRankOf)

/-- Models `_generate_irrigation_advice` (note its rainfall read defaults to
0, unlike the alert engine's 20). -/
def generateIrrigationAdvice (weather : Option WeatherData) (soil : Option SoilData)
    (_crop : Option String) (language : String) : IrrigationAdvice :=
  let moisture := soilMoistureCurrent soil
  let status := soilMoistureStatus soil
  let rainfall := (((weather.bind (·.rainfall)).bind (·.last24h)).getD 0)
  let rainForecast := ((weatherForecastOf weather).take 2).any
    (fun f => f.rainProbability.getD 0 > 60)
  if status = "low" ∧ ¬ (rainForecast = true) then
    { action := "irrigate", urgency := "high"
      message :=
        if language = "en" then
          "Irrigation recommended. Soil moisture is low (" ++ toString moisture ++
            "%) and no rain expected."
        else if language = "hi" then
          "सिंचाई की सिफारिश। मिट्टी की नमी कम है (" ++ toString moisture ++
            "%) और बारिश की उम्मीद नहीं है।"
        else if language = "mr" then
          "सिंचनाची शिफारस. मातीची आर्द्रता कमी आहे (" ++ toString moisture ++
            "%) आणि पावसाची अपेक्षा नाही."
        else "Irrigation recommended. Soil moisture is low (" ++ toString moisture ++ "%)"
      timing := "Early morning (6-8 AM) or evening (5-7 PM)"
      amount := "25-30mm equivalent" }
  else if status = "high" ∨ rainfall > 50 then
    { action := "skip", urgency := "low"
      message :=
        if language = "en" then
          "No irrigation needed. Soil moisture adequate (" ++ toString moisture ++
            "%) or recent rainfall."
        else if language = "hi" then
          "सिंचाई की जरूरत नहीं। मिट्टी की नमी पर्याप्त (" ++ toString moisture ++
            "%) या हाल ही में बारिश।"
        else if language = "mr" then
          "सिंचनाची गरज नाही. मातीची आर्द्रता पुरेशी (" ++ toString moisture ++
            "%) किंवा अलीकडील पाऊस."
        else "No irrigation needed."
      timing := "N/A"
      amount := "0mm" }
  else if rainForecast then
    { action := "wait", urgency := "medium"
      message :=
        if language = "en" then "Rain expected in next 24-48 hours. Wait before irrigating."
        else if language = "hi" then
          "अगले 24-48 घंटों में बारिश की उम्मीद। सिंचाई से पहले प्रतीक्षा करें।"
        else if language = "mr" then
          "पुढील 24-48 तासांत पावसाची अपेक्षा. सिंचन करण्यापूर्वी प्रतीक्षा करा."
        else "Rain expected. Wait before irrigating."
      timing := "After rain assessment"
      amount := "To be determined" }
  else
    { action := "monitor", urgency := "low"
      message :=
        if language = "en" then
          "Soil moisture is adequate (" ++ toString moisture ++ "%). Continue monitoring."
        else if language = "hi" then
          "मिट्टी की नमी पर्याप्त है (" ++ toString moisture ++ "%)। निगरानी जारी रखें।"
        else if language = "mr" then
          "मातीची आर्द्रता पुरेशी आहे (" ++ toString moisture ++ "%). निरीक्षण सुरू ठेवा."
        else "Soil moisture adequate (" ++ toString moisture ++ "%)."
      timing := "Check again in 2-3 days"
      amount := "N/A" }

/-- Models `_format_complete_response` (and with it `ResponseAgent.execute`,
which delegates to it after reading the task fields).  The only
time-dependent output is the `timestamp` field, set to the render-time
clock `now`. -/
def formatCompleteResponse (language : String) (state crop : Option String)
    (query : String) (weather : Option WeatherData) (soil : Option SoilData)
    (satellite : Option SatelliteData) (prediction : Option Prediction)
    (alerts : Option AlertResult) (now : ℤ) : RenderedResponse :=
  let t := translationOf language
  let translatedState := translateName state language STATE_NAMES
  let translatedCrop := translateName crop language CROP_NAMES
  let comparison := predComparison prediction
  let yieldText := if comparison > 10 then t.yieldGood
    else if comparison < -10 then t.yieldPoor
    else t.yieldModerate
  let riskScore := predRiskScore prediction
  let riskText := if riskScore < 30 then t.riskLow
    else if riskScore < 60 then t.riskMedium
    else t.riskHigh
  let confScore := predConfidenceScore prediction
  { query := query
    language := language
    greeting := t.greeting (pyStr translatedCrop) (pyStr translatedState)
    summary :=
      { text := buildSummaryText language translatedCrop translatedState prediction alerts
        yieldMessage := yieldText
        riskMessage := riskText }
    weatherCard := formatWeatherCard weather t
    soilCard := formatSoilCard soil t
    cropHealthCard := formatCropHealthCard satellite t
    predictionDetails := formatPredictionDetails prediction
    alertsFormatted := formatAlerts alerts
    charts := generateChartsData weather soil satellite prediction
    recommendations := formatRecommendations prediction soil alerts
    irrigationAdvice := generateIrrigationAdvice weather soil crop language
    confidence :=
      { score := confScore
        level := ((prediction.map (·.confidence.level)).getD "moderate")
        display := toString confScore ++ "%" }
    timestamp := now }

/-! ### Orchestrator (`manager_agent.py`) -/

/-- The result dict of `_parse_query` (the `state` and `crop` keys are
always present, possibly holding Python `None`). -/
structure ParsedQuery where
  state : Option String
  crop : Option String
  intent : String
deriving DecidableEq

/-- The crop scan list of `_parse_query`: the union of all per-state crop
lists.  The source collects these into a Python `set`, whose iteration
order is unspecified; this embedding uses first-occurrence order, which
agrees with the source whenever at most one crop name occurs in the
query. -/
def allCropsScan : List String :=
  INDIAN_STATES.foldl (fun acc p => acc ++ p.2.crops.filter (fun c => !(acc.contains c))) []

/-- Models `_parse_query`: case-insensitive substring scan of the query
against state names (table order, first match wins) and crop names, plus
keyword-list intent classification defaulting to yield prediction. -/
def parseQuery (query : String) : ParsedQuery :=
  let ql := strLower query
  let state := (INDIAN_STATES.map Prod.fst).find? (fun s => strContains ql (strLower s))
  let crop := allCropsScan.find? (fun c => strContains ql (strLower c))
  let intent :=
    if ["weather", "rain", "temperature", "मौसम", "बारिश"].any (fun w => strContains ql w)
      then "weather_info"
    else if ["soil", "fertilizer", "मिट्टी", "उर्वरक"].any (fun w => strContains ql w)
      then "soil_info"
    else if ["health", "disease", "pest", "रोग", "कीट"].any (fun w => strContains ql w)
      then "health_check"
    else if ["irrigation", "water", "सिंचाई", "पानी"].any (fun w => strContains ql w)
      then "irrigation_advice"
    else "yield_prediction"
  ⟨state, crop, intent⟩

/-- The task dict passed to `ManagerAgent.execute`. -/
structure ManagerTask where
  query : Option String := none
  language : Option String := none
  state : Option String := none
  crop : Option String := none
deriving DecidableEq

/-- The `raw_data` block of a successful run. -/
structure RawData where
  weather : WeatherData
  soil : SoilData
  satellite : SatelliteData
  prediction : Prediction
  alerts : AlertResult
deriving DecidableEq

/-- The result dict of `ManagerAgent.execute`.  The source returns one of
two dict shapes; fields present only in one shape are `Option` here, and
`state`/`crop` are doubly optional because the success dict always carries
the keys but their values may be Python `None`. -/
structure ManagerResult where
  success : Bool
  query : String
  state : Option (Option String)
  crop : Option (Option String)
  language : Option String
  rawData : Option RawData
  response : Option RenderedResponse
  error : Option String
  agentsUsed : Option (List String)
  timestamp : ℤ
deriving DecidableEq

/-- The local `query` of `ManagerAgent.execute`: `task.get("query", "")`. -/
def resolvedQuery (task : ManagerTask) : String := task.query.getD ""

/-- The local `state` of `ManagerAgent.execute`:
`task.get("state") or parsed.get("state", "Maharashtra")`.  Since
`_parse_query` always returns the `state` key (possibly holding `None`),
the written `"Maharashtra"` default of that `.get` can never apply, which
`pyOr task.state parsed.state` makes explicit: when nothing resolves, the
result is `none` (Python `None`), not the default region. -/
def resolvedState (task : ManagerTask) : Option String :=
  pyOr task.state (parseQuery (resolvedQuery task)).state

/-- The local `crop` of `ManagerAgent.execute`:
`task.get("crop") or parsed.get("crop", "Rice")`; as with the region, the
written `"Rice"` default is unreachable and `none` flows through. -/
def resolvedCrop (task : ManagerTask) : Option String :=
  pyOr task.crop (parseQuery (resolvedQuery task)).crop

/-- The local `language` of `ManagerAgent.execute`. -/
def resolvedLanguage (task : ManagerTask) : String := task.language.getD "en"

/-- The failure dict of the `except` branch of `ManagerAgent.execute`. -/
def managerFailure (e query : String) (now : ℤ) : ManagerResult :=
  { success := false
    query := query
    state := none
    crop := none
    language := none
    rawData := none
    response := none
    error := some e
    agentsUsed := none
    timestamp := now }

/-- Models `ManagerAgent.execute`, parameterized by the six stage functions
(an `Except.error` models a stage raising; the fan-out join of
`asyncio.gather` is fail-fast, modelled by sequential propagation of the
first error).  The region/crop resolution is
`task.get("state") or parsed.get("state", "Maharashtra")`; since
`_parse_query` always returns the `state`/`crop` keys (possibly `None`),
the written `"Maharashtra"`/`"Rice"` defaults of those `.get` calls can
never apply, which `pyOr task.state parsed.state` makes explicit. -/
def managerExecute
    (weatherStage : Option String → Option String → ℚ → ℚ → Except String WeatherData)
    (soilStage : Option String → Option String → ℚ → ℚ → Except String SoilData)
    (satelliteStage : Option String → Option String → ℚ → ℚ → Except String SatelliteData)
    (predictionStage : Option String → Option String → WeatherData → SoilData →
      SatelliteData → Except String Prediction)
    (alertStage : Option String → Option String → WeatherData → SoilData →
      SatelliteData → Except String AlertResult)
    (responseStage : String → Option String → Option String → String → WeatherData →
      SoilData → SatelliteData → Prediction → AlertResult →
      Except String RenderedResponse)
    (task : ManagerTask) (now : ℤ) : ManagerResult :=
  let query := resolvedQuery task
  let state := resolvedState task
  let crop := resolvedCrop task
  let language := resolvedLanguage task
  let info := getStateInfo state
  match weatherStage state crop info.lat info.lon with
  | .error e => managerFailure e query now
  | .ok weatherData =>
    match soilStage state crop info.lat info.lon with
    | .error e => managerFailure e query now
    | .ok soilData =>
      match satelliteStage state crop info.lat info.lon with
      | .error e => managerFailure e query now
      | .ok satelliteData =>
        match predictionStage state crop weatherData soilData satelliteData with
        | .error e => managerFailure e query now
        | .ok predictionData =>
          match alertStage state crop weatherData soilData satelliteData with
          | .error e => managerFailure e query now
          | .ok alertData =>
            match responseStage language state crop query weatherData soilData
                satelliteData predictionData alertData with
            | .error e => managerFailure e query now
            | .ok formattedResponse =>
              { success := true
                query := query
                state := some state
                crop := some crop
                language := some language
                rawData := some
                  { weather := weatherData
                    soil := soilData
                    satellite := satelliteData
                    prediction := predictionData
                    alerts := alertData }
                response := some formattedResponse
                error := none
                agentsUsed := some
                  ["weather", "soil", "satellite", "prediction", "alert", "response"]
                timestamp := now }

/-- The per-run environment of the concrete pipeline: clock, month, the
weather fetch configuration and every collector's random draws. -/
structure PipelineEnv where
  apiKey : String := "demo_key"
  weatherFetch : Except String WeatherData := .error "no fetch"
  month : ℕ := 7
  now : ℤ := 0
  wRng : WeatherRng := {}
  soRng : SoilRng := {}
  saRng : SatRng := {}
  predRng : PredRng := {}

/-- The concrete pipeline: `managerExecute` instantiated with the six
embedded agents.  Every embedded stage is a total function, so each stage
is wrapped as an always-`ok` `Except`. -/
def managerRun (task : ManagerTask) (env : PipelineEnv) : ManagerResult :=
  managerExecute
    (fun st _cr la lo => .ok (weatherAgentExecute env.apiKey env.weatherFetch st
      (some la) (some lo) env.month env.now env.wRng))
    (fun st cr _la _lo => .ok (soilAgentExecute st cr none env.month env.now env.soRng))
    (fun st cr la lo => .ok (satelliteAgentExecute st cr (some la) (some lo)
      env.month env.now env.saRng))
    (fun st cr w s sa => .ok (generatePrediction st cr (some w) (some s) (some sa)
      env.month env.now env.predRng))
    (fun st cr w s sa => .ok (alertAgentExecute st cr (some w) (some s) (some sa) env.now))
    (fun lang st cr q w s sa p a => .ok (formatCompleteResponse lang st cr q (some w)
      (some s) (some sa) (some p) (some a) env.now))
    task env.now

/-! ### Spec-side definitions and concrete fixtures -/

/-- The risk rollup exactly as the specification words it: critical if any
critical alert exists; else high if any high; else medium if any alert
exists; else low.  Compared against `generateRiskSummary` (which computes
via counts) in the refinement theorem for the rollup claim. -/
def specOverallRisk (alerts : List Alert) : String :=
  if alerts.any (fun a => a.severity == some "critical") then "critical"
  else if alerts.any (fun a => a.severity == some "high") then "high"
  else if ¬ alerts.isEmpty then "medium"
  else "low"

/-- An alert whose `severity` key is missing (fixture for the
prioritization claims). -/
def alertNoSeverity : Alert := {}

/-- An alert with explicit severity `"low"` (fixture for the
prioritization claims). -/
def alertLowSeverity : Alert := { severity := some "low" }

/-- A weather snapshot whose first forecast day predicts rain with
probability 90% (fixture: it makes `_generate_advance_alerts` emit a
`rain_forecast` alert). -/
def weatherRainForecast : WeatherData :=
  { forecast := [{ rainProbability := some 90 }] }

/-- A weather snapshot with zero rainfall in the last 24h (fixture: it
makes `_detect_drought_risk` emit a high-severity drought alert). -/
def weatherDry : WeatherData :=
  { rainfall := some { last24h := some 0 } }

/-- A task whose query resolves to no region and no crop (fixture for the
region-fallback claim). -/
def taskUnknownRegion : ManagerTask := { query := some "hello" }

/-- A run environment with the placeholder API key and a failing external
fetch (fixture for the fallback and pipeline claims). -/
def envFetchFails : PipelineEnv :=
  { apiKey := "demo_key", weatherFetch := .error "connection refused" }

/-- A stage function standing for a collector whose fetch raises and whose
exception escapes (fixture for the fail-fast claim; the real weather
collector never lets this happen, which is the fallback claim). -/
def failingWeatherStage :
    Option String → Option String → ℚ → ℚ → Except String WeatherData :=
  fun _ _ _ _ => .error "fetch exploded"

/-- A trivially succeeding soil stage (fixture). -/
def okSoilStage : Option String → Option String → ℚ → ℚ → Except String SoilData :=
  fun _ _ _ _ => .ok {}

/-- A trivially succeeding satellite stage (fixture). -/
def okSatelliteStage :
    Option String → Option String → ℚ → ℚ → Except String SatelliteData :=
  fun _ _ _ _ => .ok {}

/-- A prediction stage that raises (fixture; unreachable after a collector
failure). -/
def errPredictionStage : Option String → Option String → WeatherData → SoilData →
    SatelliteData → Except String Prediction :=
  fun _ _ _ _ _ => .error "unused"

/-- An alert stage that raises (fixture; unreachable after a collector
failure). -/
def errAlertStage : Option String → Option String → WeatherData → SoilData →
    SatelliteData → Except String AlertResult :=
  fun _ _ _ _ _ => .error "unused"

/-- A response stage that raises (fixture; unreachable after a collector
failure). -/
def errResponseStage : String → Option String → Option String → String → WeatherData →
    SoilData → SatelliteData → Prediction → AlertResult →
    Except String RenderedResponse :=
  fun _ _ _ _ _ _ _ _ _ => .error "unused"

/-! ### Rounding lemmas -/

theorem le_round2 (x : ℚ) : x - 1/200 ≤ round2 x := by
  have h := abs_sub_round (x * 100)
  rw [abs_le] at h
  have hr : x * 100 - 1/2 ≤ ((round (x * 100) : ℤ) : ℚ) := by linarith [h.2]
  unfold round2
  linarith

theorem round2_le (x : ℚ) : round2 x ≤ x + 1/200 := by
  have h := abs_sub_round (x * 100)
  rw [abs_le] at h
  have hr : ((round (x * 100) : ℤ) : ℚ) ≤ x * 100 + 1/2 := by linarith [h.1]
  unfold round2
  linarith

theorem round2_mono {x y : ℚ} (h : x ≤ y) : round2 x ≤ round2 y := by
  unfold round2
  have hf : round (x * 100) ≤ round (y * 100) := by
    rw [round_eq, round_eq]
    exact Int.floor_mono (by linarith)
  have hf2 : ((round (x * 100) : ℤ) : ℚ) ≤ ((round (y * 100) : ℤ) : ℚ) := by
    exact_mod_cast hf
  linarith

theorem round2_idem (x : ℚ) : round2 (round2 x) = round2 x := by
  unfold round2
  have h : ((round (x * 100) : ℤ) : ℚ) / 100 * 100 = ((round (x * 100) : ℤ) : ℚ) := by
    field_simp
  rw [h, round_intCast]

/-! ### Factor-score bounds -/

theorem calculateWeatherScore_bounds (w : Option WeatherData) (c : Option String) :
    3/10 ≤ calculateWeatherScore w c ∧ calculateWeatherScore w c ≤ 1 := by
  cases w with
  | none => norm_num [calculateWeatherScore]
  | some w =>
    simp only [calculateWeatherScore]
    exact ⟨le_trans (by norm_num) (le_max_left _ _),
      max_le (by norm_num) (le_trans (min_le_left _ _) (by norm_num))⟩

theorem calculateSoilScore_bounds (s : Option SoilData) (c : Option String) :
    3/10 ≤ calculateSoilScore s c ∧ calculateSoilScore s c ≤ 1 := by
  cases s with
  | none => norm_num [calculateSoilScore]
  | some s =>
    simp only [calculateSoilScore]
    exact ⟨le_trans (by norm_num) (le_max_left _ _),
      max_le (by norm_num) (le_trans (min_le_left _ _) (by norm_num))⟩

theorem calculateSatelliteScore_bounds (s : Option SatelliteData) :
    3/10 ≤ calculateSatelliteScore s ∧ calculateSatelliteScore s ≤ 1 := by
  cases s with
  | none => norm_num [calculateSatelliteScore]
  | some s =>
    simp only [calculateSatelliteScore]
    exact ⟨le_trans (by norm_num) (le_max_left _ _),
      max_le (by norm_num) (le_trans (min_le_left _ _) (by norm_num))⟩

theorem calculateSeasonalScore_bounds (c : Option String) (month : ℕ) {r : ℚ}
    (h0 : 0 ≤ r) (h1 : r ≤ 1) :
    1/2 ≤ calculateSeasonalScore c month r ∧ calculateSeasonalScore c month r ≤ 19/20 := by
  unfold calculateSeasonalScore uniformQ
  split_ifs <;> constructor <;> nlinarith

theorem uniformQ_mem {a b r : ℚ} (hab : a ≤ b) (h0 : 0 ≤ r) (h1 : r ≤ 1) :
    a ≤ uniformQ a b r ∧ uniformQ a b r ≤ b := by
  unfold uniformQ
  constructor <;> nlinarith

theorem combinedScore_bounds (crop : Option String) (weather : Option WeatherData)
    (soil : Option SoilData) (satellite : Option SatelliteData) (month : ℕ)
    (rng : PredRng) (hh0 : 0 ≤ rng.histDraw) (hh1 : rng.histDraw ≤ 1)
    (hs0 : 0 ≤ rng.seasDraw) (hs1 : rng.seasDraw ≤ 1) :
    39/100 ≤ combinedScore crop weather soil satellite month rng ∧
      combinedScore crop weather soil satellite month rng ≤ 391/400 := by
  have hw := calculateWeatherScore_bounds weather crop
  have hso := calculateSoilScore_bounds soil crop
  have hsa := calculateSatelliteScore_bounds satellite
  have hse := calculateSeasonalScore_bounds crop month hs0 hs1
  have hhi := uniformQ_mem (by norm_num : (0.7 : ℚ) ≤ 0.9) hh0 hh1
  unfold combinedScore RISK_WEIGHTS
  norm_num
  constructor <;> nlinarith [hw.1, hw.2, hso.1, hso.2, hsa.1, hsa.2, hse.1, hse.2,
    hhi.1, hhi.2]

/-! ### Yield-table bounds -/

theorem lookupYield_min_range (crop : Option String) :
    0 < (lookupYield crop).min ∧ 3/5 ≤ (lookupYield crop).max - (lookupYield crop).min := by
  cases crop with
  | none => norm_num [lookupYield]
  | some c =>
    unfold lookupYield
    cases h : AVERAGE_YIELDS.find? (fun p => p.1 == c) with
    | none => norm_num [h]
    | some p =>
      have hm := List.mem_of_find?_eq_some h
      simp only [AVERAGE_YIELDS, List.mem_cons, List.not_mem_nil, or_false] at hm
      rcases hm with rfl | rfl | rfl | rfl | rfl | rfl | rfl | rfl | rfl | rfl <;>
        norm_num [h]

theorem predictedYieldOf_bounds (crop : Option String) (weather : Option WeatherData)
    (soil : Option SoilData) (satellite : Option SatelliteData) (month : ℕ)
    (rng : PredRng) (hh0 : 0 ≤ rng.histDraw) (hh1 : rng.histDraw ≤ 1)
    (hs0 : 0 ≤ rng.seasDraw) (hs1 : rng.seasDraw ≤ 1) :
    (lookupYield crop).min ≤ predictedYieldOf crop weather soil satellite month rng ∧
      predictedYieldOf crop weather soil satellite month rng ≤ (lookupYield crop).max := by
  obtain ⟨hmin, hrange⟩ := lookupYield_min_range crop
  obtain ⟨hcs0, hcs1⟩ := combinedScore_bounds crop weather soil satellite month rng
    hh0 hh1 hs0 hs1
  set yi := lookupYield crop with hyi
  set cs := combinedScore crop weather soil satellite month rng with hcs
  have hr0 : (0 : ℚ) ≤ yi.max - yi.min := by linarith
  have hlo : (yi.max - yi.min) * (39/100) ≤ (yi.max - yi.min) * cs :=
    mul_le_mul_of_nonneg_left hcs0 hr0
  have hhi : (yi.max - yi.min) * cs ≤ (yi.max - yi.min) * (391/400) :=
    mul_le_mul_of_nonneg_left hcs1 hr0
  have hlo2 : (3/5 : ℚ) * (39/100) ≤ (yi.max - yi.min) * (39/100) := by nlinarith
  have hhi2 : (3/5 : ℚ) * (9/400) ≤ (yi.max - yi.min) * (9/400) := by nlinarith
  unfold predictedYieldOf
  rw [← hyi, ← hcs]
  constructor
  · have h1 := le_round2 (yi.min + (yi.max - yi.min) * cs)
    nlinarith
  · have h2 := round2_le (yi.min + (yi.max - yi.min) * cs)
    nlinarith

/-! ### Stable-sort lemmas -/

theorem filter_orderedInsert_keyLE {α : Type} (k : α → ℕ) (a : α) (l : List α) (r : ℕ) :
    (List.orderedInsert (keyLE k) a l).filter (fun b => k b == r) =
      if k a = r then a :: l.filter (fun b => k b == r)
      else l.filter (fun b => k b == r) := by
  induction l with
  | nil =>
    by_cases har : k a = r <;> simp [List.orderedInsert, List.filter, beq_eq_decide, har]
  | cons b t ih =>
    simp only [List.orderedInsert]
    by_cases hab : keyLE k a b
    · rw [if_pos hab]
      by_cases har : k a = r <;> simp [List.filter_cons, beq_eq_decide, har]
    · rw [if_neg hab]
      have hb : k b < k a := Nat.lt_of_not_le hab
      simp only [beq_eq_decide] at ih ⊢
      by_cases har : k a = r
      · have hbr : ¬ (k b = r) := by omega
        simp [List.filter_cons, hbr, ih, har]
      · by_cases hbr : k b = r <;> simp [List.filter_cons, hbr, ih, har]

theorem filter_insertionSort_keyLE {α : Type} (k : α → ℕ) (l : List α) (r : ℕ) :
    (l.insertionSort (keyLE k)).filter (fun b => k b == r) =
      l.filter (fun b => k b == r) := by
  induction l with
  | nil => rfl
  | cons a t ih =>
    simp only [List.insertionSort]
    rw [filter_orderedInsert_keyLE]
    simp only [beq_eq_decide] at ih ⊢
    by_cases har : k a = r <;> simp [List.filter_cons, har, ih]

theorem insertionSort_chain {α : Type} (k : α → ℕ) (l : List α) :
    List.Chain' (fun a b => k a ≤ k b) (l.insertionSort (keyLE k)) :=
  List.Pairwise.chain' (List.sorted_insertionSort (keyLE k) l)

/-! ### Confidence bounds -/

theorem calculateConfidence_bounds (weather : Option WeatherData) (soil : Option SoilData)
    (satellite : Option SatelliteData) (n : ℕ) :
    50 ≤ calculateConfidence weather soil satellite n ∧
      calculateConfidence weather soil satellite n ≤ 95 := by
  unfold calculateConfidence
  exact ⟨le_max_left _ _, max_le (by norm_num) (min_le_left _ _)⟩

/-! ### Claim theorems -/

/-- C1: for every crop present in the yield table, and for all weather,
soil and satellite snapshot inputs (and all draws of the bounded random
terms: the historical term from [0.7, 0.9] and the seasonal draw), the
predicted yield of the PredictionRecord produced by the fusion engine lies
within the crop's [min, max] yield range. -/
theorem c1_predicted_yield_within_crop_range
    (state : Option String) (crop : String) (weather : Option WeatherData)
    (soil : Option SoilData) (satellite : Option SatelliteData) (month : ℕ) (now : ℤ)
    (rng : PredRng)
    (_hcrop : (AVERAGE_YIELDS.any (fun p => p.1 == crop)) = true)
    (hh0 : 0 ≤ rng.histDraw) (hh1 : rng.histDraw ≤ 1)
    (hs0 : 0 ≤ rng.seasDraw) (hs1 : rng.seasDraw ≤ 1) :
    (lookupYield (some crop)).min ≤
      (generatePrediction state (some crop) weather soil satellite month now
        rng).yieldPrediction.predicted ∧
    (generatePrediction state (some crop) weather soil satellite month now
        rng).yieldPrediction.predicted ≤ (lookupYield (some crop)).max := by
  have h : (generatePrediction state (some crop) weather soil satellite month now
      rng).yieldPrediction.predicted =
      predictedYieldOf (some crop) weather soil satellite month rng := rfl
  rw [h]
  exact predictedYieldOf_bounds (some crop) weather soil satellite month rng hh0 hh1 hs0 hs1

theorem c1_witness :
    (AVERAGE_YIELDS.any (fun p => p.1 == "Rice")) = true ∧
    ((0 : ℚ) ≤ ({} : PredRng).histDraw ∧ ({} : PredRng).histDraw ≤ 1) ∧
    ((lookupYield (some "Rice")).min ≤
      (generatePrediction none (some "Rice") none none none 7 0
        {}).yieldPrediction.predicted ∧
     (generatePrediction none (some "Rice") none none none 7 0
        {}).yieldPrediction.predicted ≤ (lookupYield (some "Rice")).max) :=
  ⟨rfl, ⟨le_refl _, zero_le_one⟩,
    c1_predicted_yield_within_crop_range none "Rice" none none none 7 0 {}
      rfl (le_refl _) zero_le_one (le_refl _) zero_le_one⟩

/-- C2: for every run and all snapshot inputs (and all draws of the bounded
random terms), the prediction's confidence score lies in [50, 95] and its
confidence interval brackets the predicted yield, the margin being computed
from the confidence as in the source and applied symmetrically before
rounding. -/
theorem c2_confidence_bounds_and_interval
    (state crop : Option String) (weather : Option WeatherData)
    (soil : Option SoilData) (satellite : Option SatelliteData) (month : ℕ) (now : ℤ)
    (rng : PredRng)
    (hh0 : 0 ≤ rng.histDraw) (hh1 : rng.histDraw ≤ 1)
    (hs0 : 0 ≤ rng.seasDraw) (hs1 : rng.seasDraw ≤ 1) :
    (50 ≤ (generatePrediction state crop weather soil satellite month now
        rng).confidence.score ∧
      (generatePrediction state crop weather soil satellite month now
        rng).confidence.score ≤ 95) ∧
    ((generatePrediction state crop weather soil satellite month now
        rng).yieldPrediction.confidenceInterval.lower ≤
      (generatePrediction state crop weather soil satellite month now
        rng).yieldPrediction.predicted ∧
     (generatePrediction state crop weather soil satellite month now
        rng).yieldPrediction.predicted ≤
      (generatePrediction state crop weather soil satellite month now
        rng).yieldPrediction.confidenceInterval.upper) := by
  have hconf : (generatePrediction state crop weather soil satellite month now
      rng).confidence.score = calculateConfidence weather soil satellite rng.confNoise := rfl
  have hpred : (generatePrediction state crop weather soil satellite month now
      rng).yieldPrediction.predicted =
      predictedYieldOf crop weather soil satellite month rng := rfl
  have hlow : (generatePrediction state crop weather soil satellite month now
      rng).yieldPrediction.confidenceInterval.lower =
      round2 (predictedYieldOf crop weather soil satellite month rng -
        predictedYieldOf crop weather soil satellite month rng *
          (1 - ((calculateConfidence weather soil satellite rng.confNoise : ℤ) : ℚ) / 100) *
          0.3) := rfl
  have hupp : (generatePrediction state crop weather soil satellite month now
      rng).yieldPrediction.confidenceInterval.upper =
      round2 (predictedYieldOf crop weather soil satellite month rng +
        predictedYieldOf crop weather soil satellite month rng *
          (1 - ((calculateConfidence weather soil satellite rng.confNoise : ℤ) : ℚ) / 100) *
          0.3) := rfl
  obtain ⟨hc1, hc2⟩ := calculateConfidence_bounds weather soil satellite rng.confNoise
  obtain ⟨hp1, _hp2⟩ := predictedYieldOf_bounds crop weather soil satellite month rng
    hh0 hh1 hs0 hs1
  have hmin := (lookupYield_min_range crop).1
  set py := predictedYieldOf crop weather soil satellite month rng with hpy
  set conf := calculateConfidence weather soil satellite rng.confNoise with hcd
  have hpypos : 0 < py := lt_of_lt_of_le hmin hp1
  have hcq : ((conf : ℤ) : ℚ) ≤ 95 := by exact_mod_cast hc2
  have hmargin : 0 ≤ py * (1 - ((conf : ℤ) : ℚ) / 100) * 0.3 := by nlinarith
  have hfix : round2 py = py := by
    rw [hpy]
    unfold predictedYieldOf
    exact round2_idem _
  refine ⟨⟨by rw [hconf]; exact hc1, by rw [hconf]; exact hc2⟩, ?_, ?_⟩
  · rw [hlow, hpred]
    calc round2 (py - py * (1 - ((conf : ℤ) : ℚ) / 100) * 0.3) ≤ round2 py :=
          round2_mono (by linarith)
      _ = py := hfix
  · rw [hupp, hpred]
    calc py = round2 py := hfix.symm
      _ ≤ round2 (py + py * (1 - ((conf : ℤ) : ℚ) / 100) * 0.3) :=
          round2_mono (by linarith)

theorem c2_witness :
    ((0 : ℚ) ≤ ({} : PredRng).histDraw ∧ ({} : PredRng).histDraw ≤ 1) ∧
    ((50 ≤ (generatePrediction none none none none none 1 0 {}).confidence.score ∧
      (generatePrediction none none none none none 1 0 {}).confidence.score ≤ 95) ∧
     ((generatePrediction none none none none none 1 0
        {}).yieldPrediction.confidenceInterval.lower ≤
       (generatePrediction none none none none none 1 0 {}).yieldPrediction.predicted ∧
      (generatePrediction none none none none none 1 0 {}).yieldPrediction.predicted ≤
       (generatePrediction none none none none none 1 0
        {}).yieldPrediction.confidenceInterval.upper)) :=
  ⟨⟨le_refl _, zero_le_one⟩,
    c2_confidence_bounds_and_interval none none none none none 1 0 {}
      (le_refl _) zero_le_one (le_refl _) zero_le_one⟩

/-- C3: for every snapshot input, the alert batch produced by the alert
engine (detection in rule order drought, flood, temperature, pest/disease,
then prioritization) is non-decreasing in severity rank on every adjacent
pair, and the sort is stable: the alerts of each rank appear in the batch
exactly in their original detection order. -/
theorem c3_alert_batch_sorted_and_stable
    (crop : Option String) (weather : Option WeatherData) (soil : Option SoilData)
    (satellite : Option SatelliteData) (now : ℤ) :
    List.Chain' (fun a b => severityRankOf a ≤ severityRankOf b)
      (prioritizeAlerts (detectAllAlerts crop weather soil satellite now)) ∧
    ∀ r : ℕ,
      (prioritizeAlerts (detectAllAlerts crop weather soil satellite now)).filter
        (fun a => severityRankOf a == r) =
      (detectAllAlerts crop weather soil satellite now).filter
        (fun a => severityRankOf a == r) :=
  ⟨insertionSort_chain severityRankOf _,
   fun r => filter_insertionSort_keyLE severityRankOf _ r⟩

/-- C4: for every list of active alerts (and any advance alerts), the
overall risk rollup computed by the alert engine equals the any-of priority
fold that the specification describes: critical if any critical alert,
else high if any high, else medium if the list is non-empty, else low. -/
theorem c4_risk_rollup_matches_spec (alerts advanceAlerts : List Alert) :
    (generateRiskSummary alerts advanceAlerts).overallRisk = specOverallRisk alerts := by
  unfold generateRiskSummary specOverallRisk
  by_cases h1 : alerts.any (fun a => a.severity == some "critical")
  · have hc : 0 < alerts.countP (fun a => a.severity == some "critical") := by
      rw [List.countP_pos_iff]
      simpa [List.any_eq_true] using h1
    simp [h1, hc]
  · have hc : ¬ (0 < alerts.countP (fun a => a.severity == some "critical")) := by
      rw [List.countP_pos_iff]
      simpa [List.any_eq_true] using h1
    by_cases h2 : alerts.any (fun a => a.severity == some "high")
    · have hh : 0 < alerts.countP (fun a => a.severity == some "high") := by
        rw [List.countP_pos_iff]
        simpa [List.any_eq_true] using h2
      simp [h1, h2, hc, hh]
    · have hh : ¬ (0 < alerts.countP (fun a => a.severity == some "high")) := by
        rw [List.countP_pos_iff]
        simpa [List.any_eq_true] using h2
      by_cases h3 : alerts.isEmpty
      · rw [List.isEmpty_iff] at h3
        subst h3
        simp
      · have hne : alerts ≠ [] := by simpa [List.isEmpty_iff] using h3
        have hlen : 0 < alerts.length := List.length_pos.mpr hne
        simp [h1, h2, h3, hc, hh, hlen]

/-- C5: for every input task and all stage behaviours, the orchestrator's
run succeeds exactly when every executed stage returns without raising; a
success result carries the resolved context, all snapshots, the prediction,
the alerts and the rendered response; and any stage failure yields the
failure shape carrying the error and the query, never a partially-filled
success object. -/
theorem c5_fail_fast_run_result
    (weatherStage : Option String → Option String → ℚ → ℚ → Except String WeatherData)
    (soilStage : Option String → Option String → ℚ → ℚ → Except String SoilData)
    (satelliteStage : Option String → Option String → ℚ → ℚ → Except String SatelliteData)
    (predictionStage : Option String → Option String → WeatherData → SoilData →
      SatelliteData → Except String Prediction)
    (alertStage : Option String → Option String → WeatherData → SoilData →
      SatelliteData → Except String AlertResult)
    (responseStage : String → Option String → Option String → String → WeatherData →
      SoilData → SatelliteData → Prediction → AlertResult →
      Except String RenderedResponse)
    (task : ManagerTask) (now : ℤ) :
    ((managerExecute weatherStage soilStage satelliteStage predictionStage alertStage
        responseStage task now).success = true ↔
      ∃ w s sa p a resp,
        weatherStage (resolvedState task) (resolvedCrop task)
          (getStateInfo (resolvedState task)).lat
          (getStateInfo (resolvedState task)).lon = .ok w ∧
        soilStage (resolvedState task) (resolvedCrop task)
          (getStateInfo (resolvedState task)).lat
          (getStateInfo (resolvedState task)).lon = .ok s ∧
        satelliteStage (resolvedState task) (resolvedCrop task)
          (getStateInfo (resolvedState task)).lat
          (getStateInfo (resolvedState task)).lon = .ok sa ∧
        predictionStage (resolvedState task) (resolvedCrop task) w s sa = .ok p ∧
        alertStage (resolvedState task) (resolvedCrop task) w s sa = .ok a ∧
        responseStage (resolvedLanguage task) (resolvedState task) (resolvedCrop task)
          (resolvedQuery task) w s sa p a = .ok resp) ∧
    ((managerExecute weatherStage soilStage satelliteStage predictionStage alertStage
        responseStage task now).success = true →
      (managerExecute weatherStage soilStage satelliteStage predictionStage alertStage
        responseStage task now).state = some (resolvedState task) ∧
      (managerExecute weatherStage soilStage satelliteStage predictionStage alertStage
        responseStage task now).crop = some (resolvedCrop task) ∧
      (managerExecute weatherStage soilStage satelliteStage predictionStage alertStage
        responseStage task now).language = some (resolvedLanguage task) ∧
      (managerExecute weatherStage soilStage satelliteStage predictionStage alertStage
        responseStage task now).rawData.isSome = true ∧
      (managerExecute weatherStage soilStage satelliteStage predictionStage alertStage
        responseStage task now).response.isSome = true ∧
      (managerExecute weatherStage soilStage satelliteStage predictionStage alertStage
        responseStage task now).error = none) ∧
    ((managerExecute weatherStage soilStage satelliteStage predictionStage alertStage
        responseStage task now).success = false →
      (managerExecute weatherStage soilStage satelliteStage predictionStage alertStage
        responseStage task now).rawData = none ∧
      (managerExecute weatherStage soilStage satelliteStage predictionStage alertStage
        responseStage task now).response = none ∧
      (managerExecute weatherStage soilStage satelliteStage predictionStage alertStage
        responseStage task now).query = resolvedQuery task ∧
      ∃ e, (managerExecute weatherStage soilStage satelliteStage predictionStage alertStage
        responseStage task now).error = some e) := by
  simp only [managerExecute]
  cases hW : weatherStage (resolvedState task) (resolvedCrop task)
      (getStateInfo (resolvedState task)).lat (getStateInfo (resolvedState task)).lon with
  | error e => simp [managerFailure, hW]
  | ok w =>
    cases hS : soilStage (resolvedState task) (resolvedCrop task)
        (getStateInfo (resolvedState task)).lat (getStateInfo (resolvedState task)).lon with
    | error e => simp [managerFailure, hW, hS]
    | ok s =>
      cases hSa : satelliteStage (resolvedState task) (resolvedCrop task)
          (getStateInfo (resolvedState task)).lat
          (getStateInfo (resolvedState task)).lon with
      | error e => simp [managerFailure, hW, hS, hSa]
      | ok sa =>
        cases hP : predictionStage (resolvedState task) (resolvedCrop task) w s sa with
        | error e => simp [managerFailure, hW, hS, hSa, hP]
        | ok p =>
          cases hA : alertStage (resolvedState task) (resolvedCrop task) w s sa with
          | error e => simp [managerFailure, hW, hS, hSa, hP, hA]
          | ok a =>
            cases hR : responseStage (resolvedLanguage task) (resolvedState task)
                (resolvedCrop task) (resolvedQuery task) w s sa p a with
            | error e => simp [managerFailure, hW, hS, hSa, hP, hA, hR]
            | ok resp => simp [hW, hS, hSa, hP, hA, hR]

theorem c5_witness :
    (managerExecute failingWeatherStage okSoilStage okSatelliteStage errPredictionStage
      errAlertStage errResponseStage taskUnknownRegion 0).rawData = none ∧
    (managerExecute failingWeatherStage okSoilStage okSatelliteStage errPredictionStage
      errAlertStage errResponseStage taskUnknownRegion 0).response = none ∧
    (managerExecute failingWeatherStage okSoilStage okSatelliteStage errPredictionStage
      errAlertStage errResponseStage taskUnknownRegion 0).query =
      resolvedQuery taskUnknownRegion ∧
    ∃ e, (managerExecute failingWeatherStage okSoilStage okSatelliteStage errPredictionStage
      errAlertStage errResponseStage taskUnknownRegion 0).error = some e :=
  (c5_fail_fast_run_result failingWeatherStage okSoilStage okSatelliteStage
    errPredictionStage errAlertStage errResponseStage taskUnknownRegion 0).2.2 rfl

/-- C6: for every valid run context, if the weather collector's external
fetch raises or the external API key is not configured (the `"demo_key"`
placeholder), its execute still returns the simulation generator's
structurally complete snapshot, tagged `data_source = "simulated"`, instead
of propagating the error; and the full concrete pipeline still reaches
`success = true`.  The simulation fallback is total by construction: it is
a Lean function defined for every input. -/
theorem c6_weather_fallback_total
    (apiKey : String) (fetchResult : Except String WeatherData) (state : Option String)
    (lat lon : Option ℚ) (month : ℕ) (now : ℤ) (rng : WeatherRng)
    (task : ManagerTask) (env : PipelineEnv)
    (h : apiKey = "demo_key" ∨ ∃ e, fetchResult = .error e)
    (_henv : env.apiKey = "demo_key" ∨ ∃ e, env.weatherFetch = .error e) :
    weatherAgentExecute apiKey fetchResult state lat lon month now rng =
      generateSimulatedWeather
        (if pyFalsyNum lat ∨ pyFalsyNum lon then (getStateInfo state).lat else lat.getD 0)
        month now rng ∧
    (weatherAgentExecute apiKey fetchResult state lat lon month now rng).dataSource =
      some "simulated" ∧
    (managerRun task env).success = true := by
  have h1 : weatherAgentExecute apiKey fetchResult state lat lon month now rng =
      generateSimulatedWeather
        (if pyFalsyNum lat ∨ pyFalsyNum lon then (getStateInfo state).lat else lat.getD 0)
        month now rng := by
    unfold weatherAgentExecute
    rcases h with hk | ⟨e, he⟩
    · subst hk
      rw [if_neg (not_not_intro rfl)]
    · by_cases hk : apiKey = "demo_key"
      · subst hk
        rw [if_neg (not_not_intro rfl)]
      · rw [if_pos hk, he]
  exact ⟨h1, by rw [h1]; rfl, rfl⟩

theorem c6_witness :
    (weatherAgentExecute "demo_key" (.error "connection refused") none none none 7 0
      {}).dataSource = some "simulated" ∧
    (managerRun {} envFetchFails).success = true :=
  ⟨(c6_weather_fallback_total "demo_key" (.error "connection refused") none none none 7 0
      {} {} envFetchFails (Or.inl rfl) (Or.inl rfl)).2.1,
   (c6_weather_fallback_total "demo_key" (.error "connection refused") none none none 7 0
      {} {} envFetchFails (Or.inl rfl) (Or.inl rfl)).2.2⟩

/-- C7: evaluation of the orchestrator at a query matching no region and no
crop, with no caller-supplied region.  The run does not raise
(`success = true`) and the coordinates fall back to the default region's
entry, but the resolved region itself is `none` (Python `None`), not the
default region `"Maharashtra"`: the `"Maharashtra"` default written in
`parsed.get("state", "Maharashtra")` is dead because `_parse_query` always
returns the key, so downstream stages receive `None`.  This exhibits the
divergence between the intended fallback (the spec, and the dead defaults
in the source) and the code's behaviour. -/
theorem c7_unknown_region_state_is_none :
    (parseQuery "hello").state = none ∧
    (parseQuery "hello").crop = none ∧
    resolvedState taskUnknownRegion = none ∧
    resolvedCrop taskUnknownRegion = none ∧
    (getStateInfo (resolvedState taskUnknownRegion)).lat = 19.7515 ∧
    (managerRun taskUnknownRegion envFetchFails).success = true ∧
    (managerRun taskUnknownRegion envFetchFails).state = some none ∧
    resolvedState taskUnknownRegion ≠ some "Maharashtra" := by
  refine ⟨rfl, rfl, rfl, rfl, rfl, rfl, rfl, ?_⟩
  intro hcontra
  exact Option.noConfusion (rfl.trans hcontra : (none : Option String) = some "Maharashtra")

/-- C8 counterexample: two invocations of the renderer on identical inputs
but at different clock instants produce different outputs, because the
rendered response embeds the render-time `timestamp`; so renders are not
byte-identical merely for identical RunContext/artifact inputs. -/
theorem c8_counterexample_two_renders_differ :
    formatCompleteResponse "en" none none "" none none none none none 0 ≠
    formatCompleteResponse "en" none none "" none none none none none 1 := by
  intro hcontra
  have h := congrArg RenderedResponse.timestamp hcontra
  exact absurd h (by decide)

/-- C8 amended: for language "en" (indeed for any language) and fixed
inputs, rendering is deterministic apart from the `timestamp` field, which
records the invocation time: any two renders of identical inputs agree on
every other field, and two renders at the same instant are identical. -/
theorem c8_render_deterministic_modulo_timestamp
    (language : String) (state crop : Option String) (query : String)
    (weather : Option WeatherData) (soil : Option SoilData)
    (satellite : Option SatelliteData) (prediction : Option Prediction)
    (alerts : Option AlertResult) (now nowOther : ℤ) :
    ({ formatCompleteResponse language state crop query weather soil satellite prediction
        alerts now with timestamp := 0 } : RenderedResponse) =
    ({ formatCompleteResponse language state crop query weather soil satellite prediction
        alerts nowOther with timestamp := 0 } : RenderedResponse) ∧
    formatCompleteResponse language state crop query weather soil satellite prediction
        alerts now =
      formatCompleteResponse language state crop query weather soil satellite prediction
        alerts now :=
  ⟨rfl, rfl⟩

/-- Membership in a conditional singleton list forces equality. -/
theorem mem_ite_singleton {α : Type} {c : Prop} [Decidable c] {x a : α}
    (h : a ∈ (if c then [x] else [])) : a = x := by
  split at h
  · simpa using h
  · simp at h

theorem detectDroughtRisk_validUntil (weather : Option WeatherData)
    (soil : Option SoilData) (now : ℤ) :
    ∀ a ∈ detectDroughtRisk weather soil now,
      ∃ t, a.validUntil = some t ∧ now + 24 ≤ t ∧ t ≤ now + 72 := by
  intro a ha
  unfold detectDroughtRisk at ha
  rcases List.mem_append.mp ha with h | h
  · rw [mem_ite_singleton h]
    exact ⟨now + 48, rfl, by omega, by omega⟩
  · rw [mem_ite_singleton h]
    exact ⟨now + 24, rfl, by omega, by omega⟩

theorem detectFloodRisk_validUntil (weather : Option WeatherData)
    (soil : Option SoilData) (now : ℤ) :
    ∀ a ∈ detectFloodRisk weather soil now,
      ∃ t, a.validUntil = some t ∧ now + 24 ≤ t ∧ t ≤ now + 72 := by
  intro a ha
  unfold detectFloodRisk at ha
  rcases List.mem_append.mp ha with h | h
  · split at h
    · rw [List.mem_singleton.mp h]
      exact ⟨now + 24, rfl, by omega, by omega⟩
    · rw [mem_ite_singleton h]
      exact ⟨now + 36, rfl, by omega, by omega⟩
  · rw [mem_ite_singleton h]
    exact ⟨now + 48, rfl, by omega, by omega⟩

theorem detectTemperatureExtremes_validUntil (weather : Option WeatherData) (now : ℤ) :
    ∀ a ∈ detectTemperatureExtremes weather now,
      ∃ t, a.validUntil = some t ∧ now + 24 ≤ t ∧ t ≤ now + 72 := by
  intro a ha
  unfold detectTemperatureExtremes at ha
  rcases List.mem_append.mp ha with h | h
  · split at h
    · rw [List.mem_singleton.mp h]
      exact ⟨now + 24, rfl, by omega, by omega⟩
    · rw [mem_ite_singleton h]
      exact ⟨now + 24, rfl, by omega, by omega⟩
  · rw [mem_ite_singleton h]
    exact ⟨now + 24, rfl, by omega, by omega⟩

theorem detectPestDiseaseRisk_validUntil (weather : Option WeatherData)
    (soil : Option SoilData) (satellite : Option SatelliteData)
    (crop : Option String) (now : ℤ) :
    ∀ a ∈ detectPestDiseaseRisk weather soil satellite crop now,
      ∃ t, a.validUntil = some t ∧ now + 24 ≤ t ∧ t ≤ now + 72 := by
  intro a ha
  unfold detectPestDiseaseRisk at ha
  rcases List.mem_append.mp ha with h | h
  · rw [mem_ite_singleton h]
    exact ⟨now + 48, rfl, by omega, by omega⟩
  · rw [mem_ite_singleton h]
    exact ⟨now + 72, rfl, by omega, by omega⟩

theorem detectAllAlerts_validUntil (crop : Option String) (weather : Option WeatherData)
    (soil : Option SoilData) (satellite : Option SatelliteData) (now : ℤ) :
    ∀ a ∈ detectAllAlerts crop weather soil satellite now,
      ∃ t, a.validUntil = some t ∧ now + 24 ≤ t ∧ t ≤ now + 72 := by
  intro a ha
  unfold detectAllAlerts at ha
  rcases List.mem_append.mp ha with h | h
  · rcases List.mem_append.mp h with h2 | h2
    · rcases List.mem_append.mp h2 with h3 | h3
      · exact detectDroughtRisk_validUntil weather soil now a h3
      · exact detectFloodRisk_validUntil weather soil now a h3
    · exact detectTemperatureExtremes_validUntil weather now a h2
  · exact detectPestDiseaseRisk_validUntil weather soil satellite crop now a h

theorem generateAdvanceAlerts_no_validUntil (weather : Option WeatherData) :
    ∀ a ∈ generateAdvanceAlerts weather, a.validUntil = none := by
  intro a ha
  unfold generateAdvanceAlerts at ha
  rw [List.mem_flatMap] at ha
  obtain ⟨di, _hdi, hmem⟩ := ha
  rcases List.mem_append.mp hmem with h | h
  · rw [mem_ite_singleton h]
  · rw [mem_ite_singleton h]

/-- C9 amended: every active alert in the batch produced by the alert
engine carries a validUntil strictly later than the run's generation
timestamp, with a rule-specific forward window of 24 to 72 hours; the
advance forecast alerts, however, carry no validUntil at all (only a
relative timeframe string). -/
theorem c9_valid_until_amended (crop : Option String) (weather : Option WeatherData)
    (soil : Option SoilData) (satellite : Option SatelliteData) (now : ℤ) :
    (∀ a ∈ (alertAgentExecute none crop weather soil satellite now).activeAlerts,
      ∃ t, a.validUntil = some t ∧ now < t ∧ now + 24 ≤ t ∧ t ≤ now + 72) ∧
    (∀ a ∈ (alertAgentExecute none crop weather soil satellite now).advanceAlerts,
      a.validUntil = none) := by
  constructor
  · intro a ha
    have hperm := List.perm_insertionSort (keyLE severityRankOf)
      (detectAllAlerts crop weather soil satellite now)
    have ha2 : a ∈ detectAllAlerts crop weather soil satellite now :=
      hperm.mem_iff.mp ha
    obtain ⟨t, ht, h1, h2⟩ := detectAllAlerts_validUntil crop weather soil satellite now a ha2
    exact ⟨t, ht, by omega, h1, h2⟩
  · exact generateAdvanceAlerts_no_validUntil weather

theorem c9_witness :
    ∀ a ∈ (alertAgentExecute none none (some weatherDry) none none 0).activeAlerts,
      ∃ t, a.validUntil = some t ∧ (0 : ℤ) < t ∧ (0 : ℤ) + 24 ≤ t ∧ t ≤ (0 : ℤ) + 72 :=
  (c9_valid_until_amended none (some weatherDry) none none 0).1

/-- C9 counterexample: on a forecast predicting heavy rain, the alert
engine emits an advance alert, and that alert has no validUntil timestamp
at all, refuting the claim that every alert of the run (advance forecast
alerts included) has validUntil strictly later than generation time. -/
theorem c9_counterexample_advance_alert_without_validUntil :
    ((generateAdvanceAlerts (some weatherRainForecast)).map (fun a => a.validUntil) =
      [none]) ∧
    ¬ (∀ a ∈ generateAdvanceAlerts (some weatherRainForecast),
        ∃ t, a.validUntil = some t ∧ (0 : ℤ) < t) := by
  have hmap : (generateAdvanceAlerts (some weatherRainForecast)).map
      (fun a => a.validUntil) = [none] := by
    norm_num [generateAdvanceAlerts, weatherForecastOf, weatherRainForecast, List.enum]
  refine ⟨hmap, ?_⟩
  intro hall
  cases hl : generateAdvanceAlerts (some weatherRainForecast) with
  | nil => rw [hl] at hmap; simp at hmap
  | cons a t =>
    rw [hl] at hmap
    simp only [List.map_cons, List.cons.injEq] at hmap
    obtain ⟨tt, htt, _⟩ := hall a (by rw [hl]; exact List.mem_cons_self a t)
    rw [hmap.1] at htt
    exact Option.noConfusion htt

/-- C10 counterexample: an alert with a missing severity key ranks 3 (the
rank of "low", via the source's `x.get("severity", "low")` default), so the
stable sort leaves it before an explicit low-severity alert detected after
it, refuting the claim that a missing-severity alert is ranked after all
alerts with a known severity. -/
theorem c10_counterexample_missing_severity_not_last :
    prioritizeAlerts [alertNoSeverity, alertLowSeverity] =
      [alertNoSeverity, alertLowSeverity] ∧
    alertNoSeverity.severity = none ∧
    alertLowSeverity.severity = some "low" ∧
    severityRankOf alertNoSeverity = 3 ∧
    severityRankOf alertLowSeverity = 3 := by
  refine ⟨?_, rfl, rfl, rfl, rfl⟩
  decide

/-- C10 amended: the prioritization is a pure stable reordering — a
permutation of its input, non-decreasing in rank on adjacent pairs, with
each rank class kept in input order and no alert modified — where an alert
whose severity string is outside the known set ranks 4 (after all known
severities), while an alert with a missing severity key is treated as
severity "low" (rank 3) and therefore keeps its stable position among
low-severity alerts rather than ranking after them. -/
theorem c10_prioritize_stable_permutation (l : List Alert) :
    (prioritizeAlerts l).Perm l ∧
    List.Chain' (fun a b => severityRankOf a ≤ severityRankOf b) (prioritizeAlerts l) ∧
    (∀ r : ℕ, (prioritizeAlerts l).filter (fun a => severityRankOf a == r) =
      l.filter (fun a => severityRankOf a == r)) ∧
    (∀ a : Alert, a.severity = none → severityRankOf a = 3) ∧
    (∀ a : Alert, ∀ s, a.severity = some s →
      s ∉ ["critical", "high", "medium", "low"] → severityRankOf a = 4) := by
  refine ⟨List.perm_insertionSort _ l, insertionSort_chain severityRankOf l,
    fun r => filter_insertionSort_keyLE severityRankOf l r, ?_, ?_⟩
  · intro a h
    simp [severityRankOf, h]
  · intro a s hs hmem
    unfold severityRankOf
    rw [hs]
    simp only [Option.getD_some]
    split
    · exact absurd (by simp) hmem
    · exact absurd (by simp) hmem
    · exact absurd (by simp) hmem
    · exact absurd (by simp) hmem
    · rfl

theorem c10_witness :
    severityRankOf alertNoSeverity = 3 ∧
    severityRankOf ({ severity := some "bogus" } : Alert) = 4 :=
  ⟨(c10_prioritize_stable_permutation []).2.2.2.1 alertNoSeverity rfl,
   (c10_prioritize_stable_permutation []).2.2.2.2 _ "bogus" rfl (by decide)⟩
